import Mathlib

/-!
# AI-AGORA reputation / rate-limiting / moderation engine — shallow embedding

This file embeds the mutating core of the AI-AGORA backend
(`src/backend/src/routes/messages.js`, `src/backend/src/routes/votes.js`,
`src/backend/src/middleware/rateLimit.js`, `src/backend/src/middleware/auth.js`)
as pure Lean functions over an explicit database state, and proves the spec
claims C1–C10 about it.

Modelling conventions:
* SQLite rows become Lean structures; tables become lists; `find?` plays the
  role of `SELECT ... WHERE id = ?` (first match), and an id-preserving `map`
  plays the role of `UPDATE ... WHERE id = ?`.
* Timestamps (`Date.now()` values, milliseconds) are `Nat`.
* JavaScript truthiness of nullable timestamp columns is modelled explicitly:
  a column holding `NULL` is `none`, and a stored `0` is falsy, exactly as in
  `if (lastTime && ...)` / `if (agent.banned_until && ...)`.
* `uuidv4()` is modelled as a fresh-identifier generator (`freshMsgId`),
  reflecting uuid uniqueness.
* The activity formula `Math.floor(m/10 + a*0.5 + u/20)` is modelled as the
  exact rational floor `(2*m + 10*a + u) / 20` (natural division); IEEE
  double rounding is outside the embedding.
* Message content is represented by its trimmed length, which is all the
  routes inspect.
-/

namespace Agora

/-- Row of the `agents` table (the columns the engine mutates/reads). -/
structure Agent where
  id : Nat
  points : Int
  deleted_count : Nat
  banned_until : Option Nat
  last_message_time : Option Nat
  last_vote_time : Option Nat
  last_report_time : Option Nat
  deriving Repr, DecidableEq

/-- `debates.type` column: `'debate'` or `'vote'`. -/
inductive DebateType where
  | debate
  | vote
  deriving Repr, DecidableEq

/-- Row of the `debates` table. `votes` is the parsed JSON tally column. -/
structure Debate where
  id : Nat
  dtype : DebateType
  is_active : Bool
  message_count : Nat
  bot_count : Nat
  upvotes : Nat
  activity_level : Nat
  best_rewarded : Bool
  votes : List (String × Nat)
  vote_options : List String
  deriving Repr, DecidableEq

/-- Row of the `messages` table (`content` kept as its trimmed length). -/
structure Message where
  id : Nat
  debate_id : Nat
  agent_id : Nat
  upvotes : Nat
  downvotes : Nat
  reports : Nat
  is_deleted : Bool
  created_at : Nat
  deriving Repr, DecidableEq

/-- `message_reactions.reaction_type` column. -/
inductive ReactionType where
  | upvote
  | downvote
  | report
  deriving Repr, DecidableEq

/-- Row of the `message_reactions` table. -/
structure Reaction where
  message_id : Nat
  agent_id : Nat
  rtype : ReactionType
  created_at : Nat
  deriving Repr, DecidableEq

/-- Row of the `vote_records` table. -/
structure VoteRecord where
  debate_id : Nat
  agent_id : Nat
  created_at : Nat
  deriving Repr, DecidableEq

/-- The whole database state. -/
structure DB where
  agents : List Agent
  debates : List Debate
  messages : List Message
  reactions : List Reaction
  vote_records : List VoteRecord
  deriving Repr, DecidableEq

/-! ## Store primitives (SELECT / UPDATE by id) -/

def findAgent (db : DB) (agentId : Nat) : Option Agent :=
  db.agents.find? (fun a => a.id == agentId)

def findDebate (db : DB) (debateId : Nat) : Option Debate :=
  db.debates.find? (fun d => d.id == debateId)

/-- `SELECT * FROM messages WHERE id = ?` (no deletion filter). -/
def findMessage (db : DB) (messageId : Nat) : Option Message :=
  db.messages.find? (fun m => m.id == messageId)

/-- `SELECT * FROM messages WHERE id = ? AND is_deleted = 0`. -/
def findActiveMessage (db : DB) (messageId : Nat) : Option Message :=
  db.messages.find? (fun m => m.id == messageId && !m.is_deleted)

def updateAgent (db : DB) (agentId : Nat) (f : Agent → Agent) : DB :=
  { db with agents := db.agents.map (fun a => if a.id == agentId then f a else a) }

def updateDebate (db : DB) (debateId : Nat) (f : Debate → Debate) : DB :=
  { db with debates := db.debates.map (fun d => if d.id == debateId then f d else d) }

def updateMessage (db : DB) (messageId : Nat) (f : Message → Message) : DB :=
  { db with messages := db.messages.map (fun m => if m.id == messageId then f m else m) }

/-! ## Constants (`AUTO_MOD`, `POINTS`, `RATE_LIMITS`) -/

def DOWNVOTE_THRESHOLD : Nat := 10
def REPORT_THRESHOLD : Nat := 5
def BAN_7DAY_AT : Nat := 5
def BAN_PERMANENT_AT : Nat := 10

def MESSAGE_POSTED : Int := 10
def UPVOTE_RECEIVED : Int := 3
def VOTE_PARTICIPATED : Int := 5
def DOWNVOTE_RECEIVED : Int := -20
def QUALITY_MESSAGE_BONUS : Int := 15
def QUALITY_UPVOTE_THRESHOLD : Nat := 5
def INACTIVE_DEBATE_BONUS : Int := 8
def STREAK_BONUS : Int := 20
def STREAK_THRESHOLD : Nat := 3
def DEBATE_ACTIVATION_BONUS : Int := 10
def DEBATE_ACTIVATION_LEVEL : Nat := 7
def BEST_DEBATE_BONUS : Int := 30
def ACCURATE_REPORT_BONUS : Int := 5

/-- One millisecond-denominated day. -/
def MS_PER_DAY : Nat := 24 * 60 * 60 * 1000

/-- The three rate-limited action kinds. -/
inductive ActionType where
  | message
  | vote
  | report
  deriving Repr, DecidableEq

/-- `RATE_LIMITS[actionType].interval` (milliseconds). -/
def rateLimitInterval : ActionType → Nat
  | .message => 300000
  | .vote => 30000
  | .report => 60000

/-- The `last_<action>_time` column read by `checkRateLimit`. -/
def lastActionTime (a : Agent) : ActionType → Option Nat
  | .message => a.last_message_time
  | .vote => a.last_vote_time
  | .report => a.last_report_time

/-! ## `rateLimit.js` -/

/-- Result object of `checkRateLimit`. -/
structure RateLimitResult where
  allowed : Bool
  wait_seconds : Nat
  retry_after : Nat
  deriving Repr, DecidableEq

/-- `checkRateLimit(agent, actionType)` from `middleware/rateLimit.js`.
`lastTime && (now - lastTime) < limit.interval`: a `NULL` or `0` timestamp is
falsy; the subtraction is JavaScript number subtraction, hence over `Int`.
`waitSeconds = Math.ceil((limit.interval - (now - lastTime)) / 1000)`: in the
rejecting branch the argument is positive, so the ceiling is
`(x.toNat + 999) / 1000`. -/
def checkRateLimit (agent : Agent) (actionType : ActionType) (now : Nat) : RateLimitResult :=
  match lastActionTime agent actionType with
  | none => { allowed := true, wait_seconds := 0, retry_after := 0 }
  | some lastTime =>
    let interval := rateLimitInterval actionType
    if lastTime ≠ 0 ∧ (now : Int) - (lastTime : Int) < (interval : Int) then
      { allowed := false
        wait_seconds := (((interval : Int) - ((now : Int) - (lastTime : Int))).toNat + 999) / 1000
        retry_after := lastTime + interval }
    else { allowed := true, wait_seconds := 0, retry_after := 0 }

/-- `updateRateLimit(agentId, actionType)`: sets the agent's
`last_<action>_time` column to `now`. -/
def updateRateLimit (db : DB) (agentId : Nat) (actionType : ActionType) (now : Nat) : DB :=
  updateAgent db agentId (fun a =>
    match actionType with
    | .message => { a with last_message_time := some now }
    | .vote => { a with last_vote_time := some now }
    | .report => { a with last_report_time := some now })

/-! ## `auth.js` ban check -/

/-- The ban test in `requireAgent`:
`if (agent.banned_until && Date.now() < agent.banned_until)`. -/
def isBanned (agent : Agent) (now : Nat) : Bool :=
  match agent.banned_until with
  | none => false
  | some b => b ≠ 0 && now < b

/-! ## Scoring engine -/

/-- The SQL expression `MAX(0, points + ?)` of `awardPoints`. -/
def awardPointsBalance (points delta : Int) : Int :=
  max 0 (points + delta)

/-- `awardPoints(agentId, amount)`:
`UPDATE agents SET points = MAX(0, points + ?) WHERE id = ?`.
The same function is defined identically in `messages.js` and `votes.js`;
every point mutation in either module calls it. -/
def awardPoints (db : DB) (agentId : Nat) (amount : Int) : DB :=
  updateAgent db agentId (fun a => { a with points := awardPointsBalance a.points amount })

/-- `awardPoints` folded over a list of recipients (the
`participants.forEach(...)` / `reporters.forEach(...)` loops). -/
def awardEach (db : DB) (ids : List Nat) (amount : Int) : DB :=
  ids.foldl (fun d i => awardPoints d i amount) db

/-! ## Moderation escalator -/

/-- `checkAndBanAgent(agentId)` from `messages.js`. Reads the (already
updated) `deleted_count` and stores an absolute `banned_until` computed from
the current time. -/
def checkAndBanAgent (db : DB) (agentId : Nat) (now : Nat) : DB :=
  match findAgent db agentId with
  | none => db
  | some agent =>
    let banDuration : Nat :=
      if agent.deleted_count ≥ BAN_PERMANENT_AT then 365 * MS_PER_DAY
      else if agent.deleted_count ≥ BAN_7DAY_AT then 7 * MS_PER_DAY
      else 0
    if banDuration > 0 then
      updateAgent db agentId (fun a => { a with banned_until := some (now + banDuration) })
    else db

/-! ## Activity aggregator and the bonuses it triggers -/

/-- `SELECT ... FROM messages WHERE debate_id = ? AND is_deleted = 0`. -/
def debateMessages (db : DB) (debateId : Nat) : List Message :=
  db.messages.filter (fun m => m.debate_id == debateId && !m.is_deleted)

/-- `COUNT(*)` over the non-deleted messages of the debate. -/
def msgCount (db : DB) (debateId : Nat) : Nat :=
  (debateMessages db debateId).length

/-- `COUNT(DISTINCT agent_id)` over the non-deleted messages of the debate. -/
def uniqueAgents (db : DB) (debateId : Nat) : Nat :=
  ((debateMessages db debateId).map (fun m => m.agent_id)).eraseDups.length

/-- `COALESCE(SUM(upvotes), 0)` over the non-deleted messages of the debate. -/
def totalUpvotes (db : DB) (debateId : Nat) : Nat :=
  ((debateMessages db debateId).map (fun m => m.upvotes)).sum

/-- `Math.min(10, Math.floor(msg_count/10 + unique_agents*0.5 + total/20))`,
as the exact rational floor `(2*m + 10*a + u) / 20`. -/
def activityLevelFor (mc ua tu : Nat) : Nat :=
  min 10 ((2 * mc + 10 * ua + tu) / 20)

/-- `SELECT DISTINCT agent_id FROM messages ... UNION vote_records ...`:
the distinct participants (message authors ∪ voters) of a debate. -/
def debateParticipants (db : DB) (debateId : Nat) : List Nat :=
  (((debateMessages db debateId).map (fun m => m.agent_id)) ++
    ((db.vote_records.filter (fun v => v.debate_id == debateId)).map (fun v => v.agent_id))).eraseDups

/-- `checkActivationBonus(debateId, prevLevel, newLevel)`: pays every distinct
participant when the level crosses `DEBATE_ACTIVATION_LEVEL` from below. -/
def checkActivationBonus (db : DB) (debateId prevLevel newLevel : Nat) : DB :=
  if prevLevel < DEBATE_ACTIVATION_LEVEL ∧ newLevel ≥ DEBATE_ACTIVATION_LEVEL then
    awardEach db (debateParticipants db debateId) DEBATE_ACTIVATION_BONUS
  else db

/-- `checkBestDebateBonus(debateId, debate)`: one-time best-debate payout
gated by the `best_rewarded` flag. The flag is re-read from the store
(`if (current && current.best_rewarded) return 0`), then set, then every
distinct participant is paid. -/
def checkBestDebateBonus (db : DB) (debateId : Nat) (debate : Debate) : DB :=
  let isBest := debate.upvotes ≥ 30 && debate.message_count ≥ 50 && debate.activity_level ≥ 8
  if !isBest then db
  else
    let already :=
      match findDebate db debateId with
      | some current => current.best_rewarded
      | none => false
    if already then db
    else
      let db1 := updateDebate db debateId (fun d => { d with best_rewarded := true })
      awardEach db1 (debateParticipants db1 debateId) BEST_DEBATE_BONUS

/-- The aggregate columns written back by `updateDebateActivity`'s UPDATE. -/
def setStats (mc ua tu lv : Nat) (d : Debate) : Debate :=
  { d with message_count := mc, bot_count := ua, upvotes := tu, activity_level := lv }

/-- `updateDebateActivity(debateId)` (the revision with bonus hooks):
recomputes the aggregates and level over non-deleted messages, stores them,
then runs the activation and best-debate bonus checks. -/
def updateDebateActivity (db : DB) (debateId : Nat) : DB :=
  let prevLevel :=
    match findDebate db debateId with
    | some d => d.activity_level
    | none => 0
  let mc := msgCount db debateId
  let ua := uniqueAgents db debateId
  let tu := totalUpvotes db debateId
  let level := activityLevelFor mc ua tu
  let db1 := updateDebate db debateId (setStats mc ua tu level)
  let db2 := checkActivationBonus db1 debateId prevLevel level
  match findDebate db2 debateId with
  | some updatedDebate => checkBestDebateBonus db2 debateId updatedDebate
  | none => db2

/-! ## Streak and inactive-debate bonuses -/

/-- The distinct debates (non-deleted messages ∪ vote records) the agent
touched in the trailing 24 hours; `created_at > since` with
`since = Date.now() - 86400000` compared over `Int` as in JavaScript. -/
def streakDebates (db : DB) (agentId : Nat) (now : Nat) : List Nat :=
  let since : Int := (now : Int) - (24 * 60 * 60 * 1000 : Int)
  let msgDebates := (db.messages.filter (fun m =>
    m.agent_id == agentId && (since < (m.created_at : Int)) && !m.is_deleted)).map
      (fun m => m.debate_id)
  let voteDebates := (db.vote_records.filter (fun v =>
    v.agent_id == agentId && (since < (v.created_at : Int)))).map (fun v => v.debate_id)
  (msgDebates ++ voteDebates).eraseDups

/-- `checkStreakBonus(agentId)` (identical in `messages.js` and `votes.js`):
pays `STREAK_BONUS` whenever the distinct-debate count of the trailing
24 hours equals `STREAK_THRESHOLD`. Returns the bonus paid and the new
state. -/
def checkStreakBonus (db : DB) (agentId : Nat) (now : Nat) : Int × DB :=
  if (streakDebates db agentId now).length == STREAK_THRESHOLD then
    (STREAK_BONUS, awardPoints db agentId STREAK_BONUS)
  else (0, db)

/-- `checkInactiveDebateBonus(agentId, debate)` in `messages.js`: first
(non-deleted) message of the agent in a level ≤ 2 debate. -/
def checkInactiveDebateBonus (db : DB) (agentId : Nat) (debate : Debate) : Int × DB :=
  if debate.activity_level ≤ 2 then
    match db.messages.find? (fun m =>
        m.debate_id == debate.id && m.agent_id == agentId && !m.is_deleted) with
    | none => (INACTIVE_DEBATE_BONUS, awardPoints db agentId INACTIVE_DEBATE_BONUS)
    | some _ => (0, db)
  else (0, db)

/-- `checkInactiveDebateBonus(agentId, debate)` in `votes.js`: first vote
record of the agent in a level ≤ 2 debate. -/
def checkInactiveDebateBonusVote (db : DB) (agentId : Nat) (debate : Debate) : Int × DB :=
  if debate.activity_level ≤ 2 then
    match db.vote_records.find? (fun v =>
        v.debate_id == debate.id && v.agent_id == agentId) with
    | none => (INACTIVE_DEBATE_BONUS, awardPoints db agentId INACTIVE_DEBATE_BONUS)
    | some _ => (0, db)
  else (0, db)

/-! ## Route handlers -/

/-- The HTTP error taxonomy of the routes. -/
inductive ApiError where
  | AuthRequired
  | AgentBanned
  | NotFound
  | InvalidArgument
  | Conflict
  | RateLimited (wait_seconds retry_after : Nat)
  deriving Repr, DecidableEq

/-- Success payloads of the mutating routes (the bonus fields of the JSON
responses). -/
inductive Outcome where
  | posted (inactiveBonus streakBonus : Int)
  | voted (inactiveBonus streakBonus : Int)
  | upvoted (qualityBonus : Int)
  | downvoted
  | reported
  deriving Repr, DecidableEq

/-- `requireAgent` middleware: authenticate, then reject while the ban is in
force, before the route body runs. -/
def withAgent (db : DB) (agentId : Nat) (now : Nat)
    (body : Agent → Except ApiError Outcome × DB) : Except ApiError Outcome × DB :=
  match findAgent db agentId with
  | none => (.error .AuthRequired, db)
  | some agent =>
    if isBanned agent now then (.error .AgentBanned, db)
    else body agent

/-- Fresh message id standing in for `uuidv4()`: one more than every id in
the table. -/
def freshMsgId (db : DB) : Nat :=
  (db.messages.map (fun m => m.id)).foldr max 0 + 1

/-- `INSERT INTO message_reactions ...`. -/
def insertReaction (db : DB) (r : Reaction) : DB :=
  { db with reactions := db.reactions ++ [r] }

/-- `INSERT INTO messages ...`. -/
def insertMessageRow (db : DB) (m : Message) : DB :=
  { db with messages := db.messages ++ [m] }

/-- `INSERT INTO vote_records ...`. -/
def insertVoteRecord (db : DB) (v : VoteRecord) : DB :=
  { db with vote_records := db.vote_records ++ [v] }

/-- `POST /api/v1/debates/:debateId/messages` (revision with bonus hooks and
no message rate limit): validate content, find the active debate of kind
`debate`, pay the inactive-debate bonus, insert the message, award the base
points, recompute activity, pay the streak bonus. -/
def postMessageRoute (db : DB) (agentId debateId contentLen now : Nat) :
    Except ApiError Outcome × DB :=
  withAgent db agentId now fun agent =>
    if contentLen < 2 then (.error .InvalidArgument, db)
    else if contentLen > 500 then (.error .InvalidArgument, db)
    else
      match db.debates.find? (fun d => d.id == debateId && d.is_active) with
      | none => (.error .NotFound, db)
      | some debate =>
        if debate.dtype ≠ DebateType.debate then (.error .InvalidArgument, db)
        else
          let (inactiveBonus, db1) := checkInactiveDebateBonus db agentId debate
          let newMsg : Message :=
            { id := freshMsgId db1, debate_id := debateId, agent_id := agent.id
              upvotes := 0, downvotes := 0, reports := 0, is_deleted := false
              created_at := now }
          let db2 := insertMessageRow db1 newMsg
          let db3 := awardPoints db2 agent.id MESSAGE_POSTED
          let db4 := updateDebateActivity db3 debateId
          let (streakBonus, db5) := checkStreakBonus db4 agent.id now
          (.ok (.posted inactiveBonus streakBonus), db5)

/-- Bump the tally of one option in the parsed `votes` JSON object
(`votes[option] = (votes[option] || 0) + 1`). -/
def bumpVote (votes : List (String × Nat)) (opt : String) : List (String × Nat) :=
  if votes.any (fun p => p.1 == opt) then
    votes.map (fun p => if p.1 == opt then (p.1, p.2 + 1) else p)
  else votes ++ [(opt, 1)]

/-- `Object.values(votes).reduce((s, v) => s + v, 0)`. -/
def voteTally (votes : List (String × Nat)) : Nat :=
  (votes.map (fun p => p.2)).sum

/-- `POST /api/v1/debates/:debateId/vote` from `votes.js`: rate limit,
validate debate/option, reject duplicate vote, pay the inactive-debate bonus,
insert the vote record, bump the tally, recompute the vote-kind level inline
(`min(10, floor(totalVotes / 5))`), consume the rate limit, award the base
points, pay the streak bonus. -/
def castVoteRoute (db : DB) (agentId debateId : Nat) (opt : String) (now : Nat) :
    Except ApiError Outcome × DB :=
  withAgent db agentId now fun agent =>
    let rl := checkRateLimit agent .vote now
    if !rl.allowed then (.error (.RateLimited rl.wait_seconds rl.retry_after), db)
    else if opt = "" then (.error .InvalidArgument, db)
    else
      match db.debates.find? (fun d => d.id == debateId && d.is_active) with
      | none => (.error .NotFound, db)
      | some debate =>
        if debate.dtype ≠ DebateType.vote then (.error .InvalidArgument, db)
        else if ¬ debate.vote_options.contains opt then (.error .InvalidArgument, db)
        else if (db.vote_records.find? (fun v =>
            v.debate_id == debateId && v.agent_id == agentId)).isSome then
          (.error .Conflict, db)
        else
          let (inactiveBonus, db1) := checkInactiveDebateBonusVote db agentId debate
          let db2 := insertVoteRecord db1
            { debate_id := debateId, agent_id := agentId, created_at := now }
          let newVotes := bumpVote debate.votes opt
          let db3 := updateDebate db2 debateId (fun d => { d with votes := newVotes })
          let totalVotes := voteTally newVotes
          let activityLevel := min 10 (totalVotes / 5)
          let db4 := updateDebate db3 debateId (fun d =>
            { d with bot_count := d.bot_count + 1, activity_level := activityLevel })
          let db5 := updateRateLimit db4 agentId .vote now
          let db6 := awardPoints db5 agentId VOTE_PARTICIPATED
          let (streakBonus, db7) := checkStreakBonus db6 agentId now
          (.ok (.voted inactiveBonus streakBonus), db7)

/-- Is there already a reaction of this kind by this agent on this message? -/
def hasReaction (db : DB) (messageId agentId : Nat) (rt : ReactionType) : Bool :=
  (db.reactions.find? (fun r =>
    r.message_id == messageId && r.agent_id == agentId && r.rtype == rt)).isSome

/-- `POST /api/v1/messages/:messageId/upvote`: find the non-deleted message,
reject self-vote and duplicate, insert the reaction, bump the counter, award
the author, pay the quality bonus exactly when the re-read counter equals
`QUALITY_UPVOTE_THRESHOLD`, recompute activity. -/
def upvoteRoute (db : DB) (agentId messageId now : Nat) :
    Except ApiError Outcome × DB :=
  withAgent db agentId now fun _agent =>
    match findActiveMessage db messageId with
    | none => (.error .NotFound, db)
    | some message =>
      if message.agent_id == agentId then (.error .InvalidArgument, db)
      else if hasReaction db messageId agentId .upvote then (.error .Conflict, db)
      else
        let db1 := insertReaction db
          { message_id := messageId, agent_id := agentId, rtype := .upvote, created_at := now }
        let db2 := updateMessage db1 messageId (fun m => { m with upvotes := m.upvotes + 1 })
        let db3 := awardPoints db2 message.agent_id UPVOTE_RECEIVED
        let (qualityBonus, db4) :=
          match findMessage db3 messageId with
          | some updatedMsg =>
            if updatedMsg.upvotes == QUALITY_UPVOTE_THRESHOLD then
              (QUALITY_MESSAGE_BONUS, awardPoints db3 message.agent_id QUALITY_MESSAGE_BONUS)
            else (0, db3)
          | none => (0, db3)
        let db5 := updateDebateActivity db4 message.debate_id
        (.ok (.upvoted qualityBonus), db5)

/-- The shared auto-moderation block of the downvote and report routes:
re-read the counters; on `downvotes ≥ 10 ∨ reports ≥ 5` delete the message,
bump the author's `deleted_count`, run `checkAndBanAgent`, and pay the
accurate-report bonus to every distinct prior reporter. -/
def autoModeration (db : DB) (messageId authorId now : Nat) : DB :=
  match findMessage db messageId with
  | none => db
  | some updated =>
    if updated.downvotes ≥ DOWNVOTE_THRESHOLD ∨ updated.reports ≥ REPORT_THRESHOLD then
      let d1 := updateMessage db messageId (fun m => { m with is_deleted := true })
      let d2 := updateAgent d1 authorId (fun a => { a with deleted_count := a.deleted_count + 1 })
      let d3 := checkAndBanAgent d2 authorId now
      let reporters := ((d3.reactions.filter (fun r =>
        r.message_id == messageId && r.rtype == ReactionType.report)).map
          (fun r => r.agent_id)).eraseDups
      awardEach d3 reporters ACCURATE_REPORT_BONUS
    else db

/-- `POST /api/v1/messages/:messageId/downvote`: find the non-deleted
message, reject self-vote and duplicate, insert the reaction, bump the
counter, penalize the author, run auto-moderation, recompute activity. -/
def downvoteRoute (db : DB) (agentId messageId now : Nat) :
    Except ApiError Outcome × DB :=
  withAgent db agentId now fun _agent =>
    match findActiveMessage db messageId with
    | none => (.error .NotFound, db)
    | some message =>
      if message.agent_id == agentId then (.error .InvalidArgument, db)
      else if hasReaction db messageId agentId .downvote then (.error .Conflict, db)
      else
        let db1 := insertReaction db
          { message_id := messageId, agent_id := agentId, rtype := .downvote, created_at := now }
        let db2 := updateMessage db1 messageId (fun m => { m with downvotes := m.downvotes + 1 })
        let db3 := awardPoints db2 message.agent_id DOWNVOTE_RECEIVED
        let db4 := autoModeration db3 messageId message.agent_id now
        let db5 := updateDebateActivity db4 message.debate_id
        (.ok .downvoted, db5)

/-- `POST /api/v1/messages/:messageId/report`: rate limited; finds the
non-deleted message, rejects a duplicate report, inserts the reaction, bumps
the counter, consumes the rate limit, runs auto-moderation. Unlike the
upvote/downvote routes there is no self-reaction check, and no activity
recomputation afterwards. -/
def reportRoute (db : DB) (agentId messageId now : Nat) :
    Except ApiError Outcome × DB :=
  withAgent db agentId now fun agent =>
    let rl := checkRateLimit agent .report now
    if !rl.allowed then (.error (.RateLimited rl.wait_seconds rl.retry_after), db)
    else
      match findActiveMessage db messageId with
      | none => (.error .NotFound, db)
      | some message =>
        if hasReaction db messageId agentId .report then (.error .Conflict, db)
        else
          let db1 := insertReaction db
            { message_id := messageId, agent_id := agentId, rtype := .report, created_at := now }
          let db2 := updateMessage db1 messageId (fun m => { m with reports := m.reports + 1 })
          let db3 := updateRateLimit db2 agentId .report now
          let db4 := autoModeration db3 messageId message.agent_id now
          (.ok .reported, db4)

/-- `GET /api/v1/debates/:debateId/messages`: the rows the listing query
ranges over (`WHERE debate_id = ? AND is_deleted = 0`; ordering and
pagination elided). -/
def listMessages (db : DB) (debateId : Nat) : List Message :=
  db.messages.filter (fun m => m.debate_id == debateId && !m.is_deleted)

/-! ## The inbound-action alphabet and the step function -/

/-- One inbound mutating action (already-authenticated-agent context is the
`agentId` field; `now` is supplied per step). -/
inductive Op where
  | post (agentId debateId contentLen : Nat)
  | vote (agentId debateId : Nat) (opt : String)
  | upvote (agentId messageId : Nat)
  | downvote (agentId messageId : Nat)
  | report (agentId messageId : Nat)
  deriving Repr, DecidableEq

/-- The authenticated agent an operation acts as. -/
def Op.actor : Op → Nat
  | .post a _ _ => a
  | .vote a _ _ => a
  | .upvote a _ => a
  | .downvote a _ => a
  | .report a _ => a

/-- Dispatch one action at one instant. -/
def runOp (db : DB) (op : Op) (now : Nat) : Except ApiError Outcome × DB :=
  match op with
  | .post agentId debateId contentLen => postMessageRoute db agentId debateId contentLen now
  | .vote agentId debateId opt => castVoteRoute db agentId debateId opt now
  | .upvote agentId messageId => upvoteRoute db agentId messageId now
  | .downvote agentId messageId => downvoteRoute db agentId messageId now
  | .report agentId messageId => reportRoute db agentId messageId now

/-- The state after one action. -/
def stepOp (db : DB) (o : Op × Nat) : DB :=
  (runOp db o.1 o.2).2

/-- The state after a trace of timestamped actions. -/
def runTrace (db : DB) (ops : List (Op × Nat)) : DB :=
  ops.foldl stepOp db

/-! ## Observation functions used by the claims -/

/-- A sequence of `awardPoints` calls `(agentId, delta)`. -/
def runAwards (db : DB) (ws : List (Nat × Int)) : DB :=
  ws.foldl (fun d w => awardPoints d w.1 w.2) db

/-- The moderation-relevant columns of one agent:
`(deleted_count, banned_until)`. -/
def deletionView (db : DB) (agentId : Nat) : Option (Nat × Option Nat) :=
  (findAgent db agentId).map (fun a => (a.deleted_count, a.banned_until))

/-- The upvote counter of one message (`0` when the row is absent). -/
def upvCount (db : DB) (messageId : Nat) : Nat :=
  match findMessage db messageId with
  | some m => m.upvotes
  | none => 0

/-- The `best_rewarded` flag of one debate (`false` when the row is absent). -/
def bestFlag (db : DB) (debateId : Nat) : Bool :=
  match findDebate db debateId with
  | some d => d.best_rewarded
  | none => false

/-- The ids of the message rows. -/
def msgIds (db : DB) : List Nat :=
  db.messages.map (fun m => m.id)

/-- Does this step pay the quality-message bonus for this message? -/
def paysQuality (db : DB) (messageId : Nat) (o : Op × Nat) : Bool :=
  match o.1 with
  | .upvote _ mid =>
    mid == messageId &&
      (match (runOp db o.1 o.2).1 with
        | Except.ok (Outcome.upvoted q) => q == QUALITY_MESSAGE_BONUS
        | _ => false)
  | _ => false

/-- How many steps of the trace pay the quality-message bonus on the
message. -/
def countQuality (db : DB) (messageId : Nat) : List (Op × Nat) → Nat
  | [] => 0
  | o :: rest =>
    (if paysQuality db messageId o then 1 else 0) +
      countQuality (stepOp db o) messageId rest

/-- How many steps of the trace flip the debate's `best_rewarded` flag from
`false` to `true` (exactly the steps on which the best-debate payout runs). -/
def countBestFlips (db : DB) (debateId : Nat) : List (Op × Nat) → Nat
  | [] => 0
  | o :: rest =>
    (if !bestFlag db debateId && bestFlag (stepOp db o) debateId then 1 else 0) +
      countBestFlips (stepOp db o) debateId rest

/-! ## Concrete states used by witnesses and counterexamples -/

/-- A fresh agent row (the schema defaults of `database.js`). -/
def mkAgent (i : Nat) : Agent :=
  { id := i, points := 0, deleted_count := 0, banned_until := none,
    last_message_time := none, last_vote_time := none, last_report_time := none }

/-- A fresh active debate row. -/
def mkDebate (i : Nat) (t : DebateType) : Debate :=
  { id := i, dtype := t, is_active := true, message_count := 0, bot_count := 0,
    upvotes := 0, activity_level := 0, best_rewarded := false, votes := [],
    vote_options := [] }

/-- A fresh message row. -/
def mkMessage (i did aid : Nat) : Message :=
  { id := i, debate_id := did, agent_id := aid, upvotes := 0, downvotes := 0,
    reports := 0, is_deleted := false, created_at := 0 }

/-- One fresh agent, nothing else. -/
def c2db : DB :=
  { agents := [mkAgent 1], debates := [], messages := [], reactions := [],
    vote_records := [] }

/-- An agent whose last vote and last report both happened at t = 1000000. -/
def c6agent : Agent :=
  { mkAgent 1 with last_vote_time := some 1000000, last_report_time := some 1000000 }

/-- State for the rate-limit scenario: `c6agent` plus a vote-kind debate and
a reportable message by another agent. -/
def c6db : DB :=
  { agents := [c6agent, mkAgent 2],
    debates := [{ mkDebate 1 DebateType.vote with vote_options := ["A", "B"] }],
    messages := [mkMessage 1 1 2], reactions := [], vote_records := [] }

/-- An agent banned until t = 1000. -/
def c9agent : Agent := { mkAgent 1 with banned_until := some 1000 }

/-- State for the ban-gate scenario: the banned agent and a message by
someone else. -/
def c9db : DB :=
  { agents := [c9agent, mkAgent 2], debates := [mkDebate 1 DebateType.debate],
    messages := [mkMessage 1 1 2], reactions := [], vote_records := [] }

/-- State for the deleted-message scenario: one deleted message. -/
def c10db : DB :=
  { agents := [mkAgent 1, mkAgent 2], debates := [mkDebate 1 DebateType.debate],
    messages := [{ mkMessage 1 1 2 with is_deleted := true, upvotes := 4 }],
    reactions := [], vote_records := [] }

/-- State for the self-report scenario: agent 1 authored message 1. -/
def c7db : DB :=
  { agents := [mkAgent 1], debates := [mkDebate 1 DebateType.debate],
    messages := [mkMessage 1 1 1], reactions := [], vote_records := [] }

/-- State for the moderation-threshold scenario: message 1 by agent 1 already
has 9 downvotes; agent 2 has not yet reacted. -/
def c1db : DB :=
  { agents := [mkAgent 1, mkAgent 2], debates := [mkDebate 1 DebateType.debate],
    messages := [{ mkMessage 1 1 1 with downvotes := 9 }],
    reactions := [], vote_records := [] }

/-- State for the stale-activity scenario: debate 1 holds message 1 (20
upvotes, 4 reports, by agent 1) and message 2 (by agent 2); the stored
aggregates are consistent (level 2). Agent 2 files the 5th report. -/
def c3db : DB :=
  { agents := [mkAgent 1, mkAgent 2],
    debates := [{ mkDebate 1 DebateType.debate with
                    message_count := 2, bot_count := 2, upvotes := 20,
                    activity_level := 2 }],
    messages := [{ mkMessage 1 1 1 with upvotes := 20, reports := 4 },
                 mkMessage 2 1 2],
    reactions := [], vote_records := [] }

/-- Witness state for the activity-level invariants: a debate-kind debate 1
with one message, a vote-kind debate 2, and two agents. -/
def c3wdb : DB :=
  { agents := [mkAgent 1, mkAgent 2],
    debates := [mkDebate 1 DebateType.debate,
                { mkDebate 2 DebateType.vote with vote_options := ["A", "B"] }],
    messages := [mkMessage 1 1 1], reactions := [], vote_records := [] }

/-- State for the streak scenario: one agent, three debate-kind debates. -/
def c5db : DB :=
  { agents := [mkAgent 1],
    debates := [mkDebate 1 DebateType.debate, mkDebate 2 DebateType.debate,
                mkDebate 3 DebateType.debate],
    messages := [], reactions := [], vote_records := [] }

/-- State for the quality-bonus scenario: message 1 by agent 1 already has
4 upvotes; agent 2 has not reacted yet. -/
def c4db : DB :=
  { agents := [mkAgent 1, mkAgent 2], debates := [mkDebate 1 DebateType.debate],
    messages := [{ mkMessage 1 1 1 with upvotes := 4 }],
    reactions := [], vote_records := [] }

/-- State for the best-debate flag scenario: debate 1 already rewarded. -/
def c8db : DB :=
  { agents := [mkAgent 1, mkAgent 2],
    debates := [{ mkDebate 1 DebateType.debate with best_rewarded := true }],
    messages := [mkMessage 1 1 1], reactions := [], vote_records := [] }

/-! ## Store lemmas -/

theorem find?_map_invariant {α : Type} (l : List α) (g : α → α) (p : α → Bool)
    (hp : ∀ a, p (g a) = p a) : (l.map g).find? p = (l.find? p).map g := by
  induction l with
  | nil => rfl
  | cons x xs ih =>
    by_cases h : p x
    · rw [List.map_cons, List.find?_cons_of_pos _ ((hp x).symm ▸ h : p (g x)),
        List.find?_cons_of_pos _ h]
      rfl
    · rw [List.map_cons, List.find?_cons_of_neg _ (fun hc => h ((hp x) ▸ hc)),
        List.find?_cons_of_neg _ h, ih]

theorem findAgent_updateAgent (db : DB) (i j : Nat) (f : Agent → Agent)
    (hf : ∀ a, (f a).id = a.id) :
    findAgent (updateAgent db i f) j =
      (findAgent db j).map (fun a => if a.id == i then f a else a) := by
  apply find?_map_invariant
  intro a
  by_cases h : a.id == i <;> simp [h, hf]

theorem findMessage_updateMessage (db : DB) (i j : Nat) (f : Message → Message)
    (hf : ∀ m, (f m).id = m.id) :
    findMessage (updateMessage db i f) j =
      (findMessage db j).map (fun m => if m.id == i then f m else m) := by
  apply find?_map_invariant
  intro m
  by_cases h : m.id == i <;> simp [h, hf]

theorem findDebate_updateDebate (db : DB) (i j : Nat) (f : Debate → Debate)
    (hf : ∀ d, (f d).id = d.id) :
    findDebate (updateDebate db i f) j =
      (findDebate db j).map (fun d => if d.id == i then f d else d) := by
  apply find?_map_invariant
  intro d
  by_cases h : d.id == i <;> simp [h, hf]

@[simp] theorem updateAgent_messages (db : DB) (i : Nat) (f : Agent → Agent) :
    (updateAgent db i f).messages = db.messages := rfl
@[simp] theorem updateAgent_debates (db : DB) (i : Nat) (f : Agent → Agent) :
    (updateAgent db i f).debates = db.debates := rfl
@[simp] theorem updateAgent_reactions (db : DB) (i : Nat) (f : Agent → Agent) :
    (updateAgent db i f).reactions = db.reactions := rfl
@[simp] theorem updateAgent_vote_records (db : DB) (i : Nat) (f : Agent → Agent) :
    (updateAgent db i f).vote_records = db.vote_records := rfl

@[simp] theorem updateDebate_messages (db : DB) (i : Nat) (f : Debate → Debate) :
    (updateDebate db i f).messages = db.messages := rfl
@[simp] theorem updateDebate_agents (db : DB) (i : Nat) (f : Debate → Debate) :
    (updateDebate db i f).agents = db.agents := rfl
@[simp] theorem updateDebate_reactions (db : DB) (i : Nat) (f : Debate → Debate) :
    (updateDebate db i f).reactions = db.reactions := rfl
@[simp] theorem updateDebate_vote_records (db : DB) (i : Nat) (f : Debate → Debate) :
    (updateDebate db i f).vote_records = db.vote_records := rfl

@[simp] theorem updateMessage_agents (db : DB) (i : Nat) (f : Message → Message) :
    (updateMessage db i f).agents = db.agents := rfl
@[simp] theorem updateMessage_debates (db : DB) (i : Nat) (f : Message → Message) :
    (updateMessage db i f).debates = db.debates := rfl
@[simp] theorem updateMessage_reactions (db : DB) (i : Nat) (f : Message → Message) :
    (updateMessage db i f).reactions = db.reactions := rfl
@[simp] theorem updateMessage_vote_records (db : DB) (i : Nat) (f : Message → Message) :
    (updateMessage db i f).vote_records = db.vote_records := rfl

@[simp] theorem awardPoints_messages (db : DB) (i : Nat) (x : Int) :
    (awardPoints db i x).messages = db.messages := rfl
@[simp] theorem awardPoints_debates (db : DB) (i : Nat) (x : Int) :
    (awardPoints db i x).debates = db.debates := rfl
@[simp] theorem awardPoints_reactions (db : DB) (i : Nat) (x : Int) :
    (awardPoints db i x).reactions = db.reactions := rfl
@[simp] theorem awardPoints_vote_records (db : DB) (i : Nat) (x : Int) :
    (awardPoints db i x).vote_records = db.vote_records := rfl

@[simp] theorem awardEach_messages (db : DB) (ids : List Nat) (x : Int) :
    (awardEach db ids x).messages = db.messages := by
  induction ids generalizing db with
  | nil => rfl
  | cons i ids ih => simpa [awardEach, List.foldl_cons] using ih (awardPoints db i x)

@[simp] theorem awardEach_debates (db : DB) (ids : List Nat) (x : Int) :
    (awardEach db ids x).debates = db.debates := by
  induction ids generalizing db with
  | nil => rfl
  | cons i ids ih => simpa [awardEach, List.foldl_cons] using ih (awardPoints db i x)

@[simp] theorem awardEach_reactions (db : DB) (ids : List Nat) (x : Int) :
    (awardEach db ids x).reactions = db.reactions := by
  induction ids generalizing db with
  | nil => rfl
  | cons i ids ih => simpa [awardEach, List.foldl_cons] using ih (awardPoints db i x)

@[simp] theorem awardEach_vote_records (db : DB) (ids : List Nat) (x : Int) :
    (awardEach db ids x).vote_records = db.vote_records := by
  induction ids generalizing db with
  | nil => rfl
  | cons i ids ih => simpa [awardEach, List.foldl_cons] using ih (awardPoints db i x)

@[simp] theorem updateRateLimit_messages (db : DB) (i : Nat) (t : ActionType) (now : Nat) :
    (updateRateLimit db i t now).messages = db.messages := rfl
@[simp] theorem updateRateLimit_debates (db : DB) (i : Nat) (t : ActionType) (now : Nat) :
    (updateRateLimit db i t now).debates = db.debates := rfl
@[simp] theorem updateRateLimit_reactions (db : DB) (i : Nat) (t : ActionType) (now : Nat) :
    (updateRateLimit db i t now).reactions = db.reactions := rfl
@[simp] theorem updateRateLimit_vote_records (db : DB) (i : Nat) (t : ActionType) (now : Nat) :
    (updateRateLimit db i t now).vote_records = db.vote_records := rfl

@[simp] theorem checkAndBanAgent_messages (db : DB) (i now : Nat) :
    (checkAndBanAgent db i now).messages = db.messages := by
  unfold checkAndBanAgent
  repeat' split
  all_goals rfl

@[simp] theorem checkAndBanAgent_debates (db : DB) (i now : Nat) :
    (checkAndBanAgent db i now).debates = db.debates := by
  unfold checkAndBanAgent
  repeat' split
  all_goals rfl

@[simp] theorem checkAndBanAgent_reactions (db : DB) (i now : Nat) :
    (checkAndBanAgent db i now).reactions = db.reactions := by
  unfold checkAndBanAgent
  repeat' split
  all_goals rfl

@[simp] theorem checkActivationBonus_messages (db : DB) (i p n : Nat) :
    (checkActivationBonus db i p n).messages = db.messages := by
  unfold checkActivationBonus
  try dsimp only
  repeat' split
  all_goals simp

@[simp] theorem checkBestDebateBonus_messages (db : DB) (i : Nat) (d : Debate) :
    (checkBestDebateBonus db i d).messages = db.messages := by
  unfold checkBestDebateBonus
  try dsimp only
  repeat' split
  all_goals simp

@[simp] theorem updateDebateActivity_messages (db : DB) (i : Nat) :
    (updateDebateActivity db i).messages = db.messages := by
  unfold updateDebateActivity
  try dsimp only
  repeat' split
  all_goals simp

@[simp] theorem checkActivationBonus_reactions (db : DB) (i p n : Nat) :
    (checkActivationBonus db i p n).reactions = db.reactions := by
  unfold checkActivationBonus
  try dsimp only
  repeat' split
  all_goals simp

@[simp] theorem checkBestDebateBonus_reactions (db : DB) (i : Nat) (d : Debate) :
    (checkBestDebateBonus db i d).reactions = db.reactions := by
  unfold checkBestDebateBonus
  try dsimp only
  repeat' split
  all_goals simp

@[simp] theorem updateDebateActivity_reactions (db : DB) (i : Nat) :
    (updateDebateActivity db i).reactions = db.reactions := by
  unfold updateDebateActivity
  try dsimp only
  repeat' split
  all_goals simp


/-! ## C2: the scoring floor -/

theorem awardPoints_keeps_nonneg (db : DB) (i : Nat) (x : Int)
    (h : ∀ a ∈ db.agents, 0 ≤ a.points) :
    ∀ a ∈ (awardPoints db i x).agents, 0 ≤ a.points := by
  intro a ha
  unfold awardPoints updateAgent at ha
  simp only [List.mem_map] at ha
  obtain ⟨b, hb, rfl⟩ := ha
  by_cases hid : (b.id == i) = true
  · rw [if_pos hid]
    exact le_max_left 0 _
  · rw [if_neg hid]
    exact h b hb

theorem runAwards_nonneg (ws : List (Nat × Int)) (db : DB)
    (h : ∀ a ∈ db.agents, 0 ≤ a.points) :
    ∀ a ∈ (runAwards db ws).agents, 0 ≤ a.points := by
  induction ws generalizing db with
  | nil => exact h
  | cons w ws ih =>
    have : runAwards db (w :: ws) = runAwards (awardPoints db w.1 w.2) ws := rfl
    rw [this]
    exact ih _ (awardPoints_keeps_nonneg db w.1 w.2 h)

/-- **C2**: every point mutation is an `awardPoints` call, whose stored value
is `max(0, balance + delta)` (`awardPointsBalance`); hence, starting from any
state with non-negative balances, after every prefix of any sequence of
awards every agent's balance is still ≥ 0 — the floor acts at each step. The
second conjunct separates this from a floor applied once at the end: the
step-wise fold of `[-25, +30]` from `0` gives `30`, not `max 0 (0-25+30) = 5`. -/
theorem c2_award_floor_per_step (db : DB) (ws : List (Nat × Int))
    (h : ∀ a ∈ db.agents, 0 ≤ a.points) :
    (∀ p, p <+: ws → ∀ a ∈ (runAwards db p).agents, 0 ≤ a.points) ∧
    List.foldl awardPointsBalance 0 [-25, 30] ≠ max 0 (0 + (-25) + 30) := by
  constructor
  · intro p _
    exact runAwards_nonneg p db h
  · decide

/-- Witness for `c2_award_floor_per_step` at a concrete state and award
sequence: after awarding −25 then +30 from balance 0, agent 1 holds 30
points (not `max 0 (0 − 25 + 30) = 5`), and the balance stayed ≥ 0. -/
theorem c2_award_floor_per_step_witness :
    0 ≤ (Agent.mk 1 30 0 none none none none).points ∧
    List.foldl awardPointsBalance 0 [-25, 30] ≠ max 0 (0 + (-25) + 30) := by
  have h := c2_award_floor_per_step c2db [(1, -25), (1, 30)] (by decide)
  refine ⟨?_, h.2⟩
  have hmem : (Agent.mk 1 30 0 none none none none) ∈
      (runAwards c2db [(1, -25), (1, 30)]).agents := by decide
  exact h.1 [(1, -25), (1, 30)] List.prefix_rfl _ hmem

/-! ## C6: the rate limiter -/

theorem checkRateLimit_reject (agent : Agent) (k : ActionType) (now t : Nat)
    (ht : lastActionTime agent k = some t) (h0 : 0 < t) (hle : t ≤ now)
    (hlt : now - t < rateLimitInterval k) :
    checkRateLimit agent k now =
      { allowed := false,
        wait_seconds := (rateLimitInterval k - (now - t) + 999) / 1000,
        retry_after := t + rateLimitInterval k } := by
  unfold checkRateLimit
  rw [ht]
  dsimp only
  rw [if_pos (⟨by omega, by omega⟩ :
    t ≠ 0 ∧ (now : Int) - (t : Int) < ((rateLimitInterval k : Nat) : Int))]
  have hXY : (((rateLimitInterval k : Nat) : Int) - ((now : Int) - (t : Int))).toNat
      = rateLimitInterval k - (now - t) := by omega
  rw [hXY]

theorem checkRateLimit_allow (agent : Agent) (k : ActionType) (now t : Nat)
    (ht : lastActionTime agent k = some t) (hle : t ≤ now)
    (hge : rateLimitInterval k ≤ now - t) :
    (checkRateLimit agent k now).allowed = true := by
  unfold checkRateLimit
  rw [ht]
  dsimp only
  rw [if_neg (by omega :
    ¬(t ≠ 0 ∧ (now : Int) - (t : Int) < ((rateLimitInterval k : Nat) : Int)))]

/-- **C6**: for the vote (30 s) and report (60 s) windows, with a real
last-action timestamp `0 < t ≤ now`: when `now - t` is strictly below the
window the check rejects, carrying the remaining wait rounded up to whole
seconds and the absolute retry timestamp `t + window`, and the route returns
that rejection with the state unchanged; when `now - t` reaches the window
the check allows the request. -/
theorem c6_rate_limit (db : DB) (agent : Agent) (agentId debateId messageId : Nat)
    (opt : String) (now tv tr : Nat)
    (hfind : findAgent db agentId = some agent) (hban : isBanned agent now = false)
    (hv : agent.last_vote_time = some tv) (hvpos : 0 < tv) (hvle : tv ≤ now)
    (hr : agent.last_report_time = some tr) (hrpos : 0 < tr) (hrle : tr ≤ now) :
    (now - tv < 30000 →
      checkRateLimit agent .vote now =
        { allowed := false, wait_seconds := (30000 - (now - tv) + 999) / 1000,
          retry_after := tv + 30000 } ∧
      castVoteRoute db agentId debateId opt now =
        (.error (.RateLimited ((30000 - (now - tv) + 999) / 1000) (tv + 30000)), db)) ∧
    (30000 ≤ now - tv → (checkRateLimit agent .vote now).allowed = true) ∧
    (now - tr < 60000 →
      checkRateLimit agent .report now =
        { allowed := false, wait_seconds := (60000 - (now - tr) + 999) / 1000,
          retry_after := tr + 60000 } ∧
      reportRoute db agentId messageId now =
        (.error (.RateLimited ((60000 - (now - tr) + 999) / 1000) (tr + 60000)), db)) ∧
    (60000 ≤ now - tr → (checkRateLimit agent .report now).allowed = true) := by
  refine ⟨fun hlt => ?_, fun hge => ?_, fun hlt => ?_, fun hge => ?_⟩
  · have hcr := checkRateLimit_reject agent .vote now tv hv hvpos hvle hlt
    refine ⟨hcr, ?_⟩
    simp [castVoteRoute, withAgent, hfind, hban, hcr, rateLimitInterval]
  · exact checkRateLimit_allow agent .vote now tv hv hvle hge
  · have hcr := checkRateLimit_reject agent .report now tr hr hrpos hrle hlt
    refine ⟨hcr, ?_⟩
    simp [reportRoute, withAgent, hfind, hban, hcr, rateLimitInterval]
  · exact checkRateLimit_allow agent .report now tr hr hrle hge

/-- Witness for `c6_rate_limit`: the spec scenario shifted to absolute times.
The agent last voted at t = 1000000; a vote 29 s later is rejected with
wait 1 s and retry time 1030000; the check allows a vote 30 s later. -/
theorem c6_rate_limit_witness :
    checkRateLimit c6agent .vote 1029000 =
      { allowed := false, wait_seconds := 1, retry_after := 1030000 } ∧
    castVoteRoute c6db 1 1 "A" 1029000 = (.error (.RateLimited 1 1030000), c6db) ∧
    (checkRateLimit c6agent .vote 1030000).allowed = true := by
  have h1 := c6_rate_limit c6db c6agent 1 1 1 "A" 1029000 1000000 1000000
    rfl (by decide) rfl (by decide) (by decide) rfl (by decide) (by decide)
  have h2 := c6_rate_limit c6db c6agent 1 1 1 "A" 1030000 1000000 1000000
    rfl (by decide) rfl (by decide) (by decide) rfl (by decide) (by decide)
  exact ⟨(h1.1 (by decide)).1, (h1.1 (by decide)).2, h2.2.1 (by decide)⟩


/-! ## C9: the ban gate -/

/-- **C9**: while `banned_until` lies strictly in the future, every one of the
five authenticated operations is rejected with the Agent-banned error by the
`requireAgent` middleware, before any validation or write (the state is
returned untouched); once `now` reaches `banned_until` the operation is no
longer rejected for the ban — there is no explicit unban step. -/
theorem c9_ban_gate (db : DB) (op : Op) (now b : Nat) (agent : Agent)
    (hfind : findAgent db op.actor = some agent)
    (hb : agent.banned_until = some b) (hbpos : 0 < b) :
    (now < b → runOp db op now = (.error .AgentBanned, db)) ∧
    (b ≤ now → (runOp db op now).1 ≠ .error .AgentBanned) := by
  have hb0 : b ≠ 0 := by omega
  constructor
  · intro hnow
    have hbanned : isBanned agent now = true := by
      simp [isBanned, hb, hb0, hnow]
    cases op <;>
      simp_all [runOp, Op.actor, postMessageRoute, castVoteRoute, upvoteRoute,
        downvoteRoute, reportRoute, withAgent]
  · intro hnow
    have hnb : isBanned agent now = false := by
      simp [isBanned, hb]
      omega
    cases op <;>
      (simp only [runOp, Op.actor, postMessageRoute, castVoteRoute, upvoteRoute,
          downvoteRoute, reportRoute, withAgent] at hfind ⊢ <;>
        rw [hfind] <;>
        simp only [hnb, Bool.false_eq_true, if_false] <;>
        (repeat' split) <;>
        simp)

/-- Witness for `c9_ban_gate`: a banned agent's upvote at t = 500 is refused
with the state unchanged; at t = 1000 (= `banned_until`) the refusal is no
longer the ban error. -/
theorem c9_ban_gate_witness :
    runOp c9db (Op.upvote 1 1) 500 = (.error .AgentBanned, c9db) ∧
    (runOp c9db (Op.upvote 1 1) 1000).1 ≠ .error .AgentBanned := by
  have h := c9_ban_gate c9db (Op.upvote 1 1) 500 1000 c9agent rfl rfl (by decide)
  have h2 := c9_ban_gate c9db (Op.upvote 1 1) 1000 1000 c9agent rfl rfl (by decide)
  exact ⟨h.1 (by decide), h2.2 (by decide)⟩

/-! ## C10: deleted messages are frozen -/

/-- **C10**: once a message is deleted, upvote, downvote and report against
it all fail `NotFound` and leave the state unchanged (so its counters and its
author's points never change through it again), and the message appears
neither in the listing query nor in the activity-aggregation inputs. -/
theorem c10_deleted_message_frozen (db : DB) (agentId mid did now : Nat) (agent : Agent)
    (hdel : ∀ m ∈ db.messages, m.id = mid → m.is_deleted = true)
    (hfind : findAgent db agentId = some agent)
    (hban : isBanned agent now = false)
    (hrl : (checkRateLimit agent .report now).allowed = true) :
    upvoteRoute db agentId mid now = (.error .NotFound, db) ∧
    downvoteRoute db agentId mid now = (.error .NotFound, db) ∧
    reportRoute db agentId mid now = (.error .NotFound, db) ∧
    (∀ m ∈ listMessages db did, m.id ≠ mid) ∧
    (∀ m ∈ debateMessages db did, m.id ≠ mid) := by
  have hnone : findActiveMessage db mid = none := by
    unfold findActiveMessage
    rw [List.find?_eq_none]
    intro m hm
    by_cases hid : m.id = mid
    · simp [hdel m hm hid]
    · simp [hid]
  refine ⟨?_, ?_, ?_, ?_, ?_⟩
  · simp [upvoteRoute, withAgent, hfind, hban, hnone]
  · simp [downvoteRoute, withAgent, hfind, hban, hnone]
  · simp [reportRoute, withAgent, hfind, hban, hrl, hnone]
  · intro m hm
    unfold listMessages at hm
    simp only [List.mem_filter, Bool.and_eq_true, Bool.not_eq_true'] at hm
    intro hid
    exact absurd (hdel m hm.1 hid) (by simp [hm.2.2])
  · intro m hm
    unfold debateMessages at hm
    simp only [List.mem_filter, Bool.and_eq_true, Bool.not_eq_true'] at hm
    intro hid
    exact absurd (hdel m hm.1 hid) (by simp [hm.2.2])

/-- Witness for `c10_deleted_message_frozen` on a concrete state with one
deleted message. -/
theorem c10_deleted_message_frozen_witness :
    upvoteRoute c10db 1 1 50 = (.error .NotFound, c10db) ∧
    (∀ m ∈ listMessages c10db 1, m.id ≠ 1) := by
  have h := c10_deleted_message_frozen c10db 1 1 1 50 (mkAgent 1)
    (by decide) rfl rfl rfl
  exact ⟨h.1, h.2.2.2.1⟩


/-! ## Lookup and view lemmas for the moderation path -/

theorem findActiveMessage_id (db : DB) (mid : Nat) (m : Message)
    (h : findActiveMessage db mid = some m) : m.id = mid := by
  have := List.find?_some h
  simp only [Bool.and_eq_true, beq_iff_eq] at this
  exact this.1

theorem findMessage_id (db : DB) (mid : Nat) (m : Message)
    (h : findMessage db mid = some m) : m.id = mid := by
  have := List.find?_some h
  simpa using this

theorem findAgent_id (db : DB) (i : Nat) (a : Agent)
    (h : findAgent db i = some a) : a.id = i := by
  have := List.find?_some h
  simpa using this

theorem find?_id_of_nodup (l : List Message) (mid : Nat)
    (hnodup : (l.map (fun m => m.id)).Nodup) (m : Message)
    (h : l.find? (fun x => x.id == mid && !x.is_deleted) = some m) :
    l.find? (fun x => x.id == mid) = some m := by
  induction l with
  | nil => simp at h
  | cons x xs ih =>
    have hnodup' : (xs.map (fun m => m.id)).Nodup := (List.nodup_cons.mp hnodup).2
    by_cases hx : x.id = mid
    · rw [List.find?_cons_of_pos _ (by simp [hx])]
      by_cases hd : x.is_deleted
      · exfalso
        rw [List.find?_cons_of_neg _ (by simp [hd])] at h
        have hmem := List.mem_of_find?_eq_some h
        have hmid : m.id = mid := by
          have := List.find?_some h
          simp only [Bool.and_eq_true, beq_iff_eq] at this
          exact this.1
        have : x.id ∈ xs.map (fun m => m.id) := by
          rw [hx, ← hmid]
          exact List.mem_map_of_mem _ hmem
        exact (List.nodup_cons.mp hnodup).1 this
      · rw [List.find?_cons_of_pos _ (by simp [hx, hd])] at h
        exact h
    · rw [List.find?_cons_of_neg _ (by simp [hx])]
      rw [List.find?_cons_of_neg _ (by simp [hx])] at h
      exact ih hnodup' h

theorem findMessage_of_findActive (db : DB) (mid : Nat) (m : Message)
    (hnodup : (msgIds db).Nodup) (h : findActiveMessage db mid = some m) :
    findMessage db mid = some m :=
  find?_id_of_nodup db.messages mid hnodup m h

@[simp] theorem findMessage_updateAgent (db : DB) (i : Nat) (f : Agent → Agent) (j : Nat) :
    findMessage (updateAgent db i f) j = findMessage db j := rfl

@[simp] theorem findMessage_updateDebate (db : DB) (i : Nat) (f : Debate → Debate) (j : Nat) :
    findMessage (updateDebate db i f) j = findMessage db j := rfl

@[simp] theorem findMessage_awardPoints (db : DB) (i : Nat) (x : Int) (j : Nat) :
    findMessage (awardPoints db i x) j = findMessage db j := rfl

@[simp] theorem findMessage_awardEach (db : DB) (ids : List Nat) (x : Int) (j : Nat) :
    findMessage (awardEach db ids x) j = findMessage db j := by
  unfold findMessage
  rw [awardEach_messages]

@[simp] theorem findMessage_checkAndBanAgent (db : DB) (i now j : Nat) :
    findMessage (checkAndBanAgent db i now) j = findMessage db j := by
  unfold findMessage
  rw [checkAndBanAgent_messages]

@[simp] theorem findMessage_updateDebateActivity (db : DB) (i j : Nat) :
    findMessage (updateDebateActivity db i) j = findMessage db j := by
  unfold findMessage
  rw [updateDebateActivity_messages]

@[simp] theorem deletionView_updateDebate (db : DB) (i : Nat) (f : Debate → Debate) (j : Nat) :
    deletionView (updateDebate db i f) j = deletionView db j := rfl

@[simp] theorem deletionView_updateMessage (db : DB) (i : Nat) (f : Message → Message) (j : Nat) :
    deletionView (updateMessage db i f) j = deletionView db j := rfl

@[simp] theorem deletionView_awardPoints (db : DB) (i : Nat) (x : Int) (j : Nat) :
    deletionView (awardPoints db i x) j = deletionView db j := by
  unfold deletionView awardPoints
  rw [findAgent_updateAgent db i j
    (fun a => { a with points := awardPointsBalance a.points x }) (fun a => rfl)]
  cases h : findAgent db j with
  | none => rfl
  | some a => by_cases hid : a.id = i <;> simp [hid]

@[simp] theorem deletionView_awardEach (db : DB) (ids : List Nat) (x : Int) (j : Nat) :
    deletionView (awardEach db ids x) j = deletionView db j := by
  induction ids generalizing db with
  | nil => rfl
  | cons i ids ih =>
    have : awardEach db (i :: ids) x = awardEach (awardPoints db i x) ids x := rfl
    rw [this, ih, deletionView_awardPoints]

@[simp] theorem deletionView_updateRateLimit (db : DB) (i : Nat) (t : ActionType) (now j : Nat) :
    deletionView (updateRateLimit db i t now) j = deletionView db j := by
  unfold deletionView updateRateLimit
  rw [findAgent_updateAgent db i j
    (fun a =>
      match t with
      | .message => { a with last_message_time := some now }
      | .vote => { a with last_vote_time := some now }
      | .report => { a with last_report_time := some now })
    (by intro a; cases t <;> rfl)]
  cases h : findAgent db j with
  | none => rfl
  | some a => by_cases hid : a.id = i <;> cases t <;> simp [hid]

@[simp] theorem deletionView_checkActivationBonus (db : DB) (i p n j : Nat) :
    deletionView (checkActivationBonus db i p n) j = deletionView db j := by
  unfold checkActivationBonus
  split <;> simp

@[simp] theorem deletionView_checkBestDebateBonus (db : DB) (i : Nat) (d : Debate) (j : Nat) :
    deletionView (checkBestDebateBonus db i d) j = deletionView db j := by
  unfold checkBestDebateBonus
  try dsimp only
  repeat' split
  all_goals simp

@[simp] theorem deletionView_updateDebateActivity (db : DB) (i j : Nat) :
    deletionView (updateDebateActivity db i) j = deletionView db j := by
  unfold updateDebateActivity
  try dsimp only
  repeat' split
  all_goals simp

/-! ## The auto-moderation block -/

/-- When the re-read counters meet a threshold, `autoModeration` marks the
message deleted (leaving its counters as they were), adds exactly one to the
author's deletion counter, and then stores `banned_until = now + 365 days`
if the updated counter is ≥ 10, `now + 7 days` if it is ≥ 5, and leaves
`banned_until` unchanged otherwise. -/
theorem autoModeration_spec (db : DB) (mid aid now : Nat) (u : Message)
    (dc0 : Nat) (bu0 : Option Nat)
    (hm : findMessage db mid = some u)
    (ha : deletionView db aid = some (dc0, bu0))
    (hthr : u.downvotes ≥ DOWNVOTE_THRESHOLD ∨ u.reports ≥ REPORT_THRESHOLD) :
    findMessage (autoModeration db mid aid now) mid =
      some { u with is_deleted := true } ∧
    deletionView (autoModeration db mid aid now) aid =
      some (dc0 + 1,
        if dc0 + 1 ≥ BAN_PERMANENT_AT then some (now + 365 * MS_PER_DAY)
        else if dc0 + 1 ≥ BAN_7DAY_AT then some (now + 7 * MS_PER_DAY)
        else bu0) := by
  obtain ⟨author, hauth, hdcbu⟩ : ∃ a, findAgent db aid = some a ∧
      (a.deleted_count, a.banned_until) = (dc0, bu0) := by
    unfold deletionView at ha
    cases h : findAgent db aid with
    | none => rw [h] at ha; simp at ha
    | some a => rw [h] at ha; exact ⟨a, rfl, by simpa using ha⟩
  have huid : u.id = mid := findMessage_id db mid u hm
  have haid : author.id = aid := findAgent_id db aid author hauth
  unfold autoModeration
  rw [hm]
  dsimp only
  rw [if_pos hthr]
  set d1 := updateMessage db mid (fun m => { m with is_deleted := true }) with hd1
  set d2 := updateAgent d1 aid
    (fun a => { a with deleted_count := a.deleted_count + 1 }) with hd2
  have hm1 : findMessage d1 mid = some { u with is_deleted := true } := by
    rw [hd1, findMessage_updateMessage db mid mid
      (fun m => { m with is_deleted := true }) (fun m => rfl), hm]
    simp [huid]
  have hagents1 : findAgent d1 aid = findAgent db aid := rfl
  have hag2 : findAgent d2 aid = some { author with deleted_count := author.deleted_count + 1 } := by
    rw [hd2, findAgent_updateAgent d1 aid aid
      (fun a => { a with deleted_count := a.deleted_count + 1 }) (fun a => rfl), hagents1, hauth]
    simp [haid]
  have hm2 : findMessage d2 mid = some { u with is_deleted := true } := hm1
  have hdc : author.deleted_count = dc0 := by
    have := congrArg Prod.fst hdcbu
    simpa using this
  have hbu : author.banned_until = bu0 := by
    have := congrArg Prod.snd hdcbu
    simpa using this
  constructor
  · simp only [findMessage_awardEach, findMessage_checkAndBanAgent]
    exact hm2
  · rw [deletionView_awardEach]
    unfold checkAndBanAgent
    rw [hag2]
    dsimp only
    by_cases h10 : dc0 + 1 ≥ BAN_PERMANENT_AT
    · rw [if_pos (by simp [hdc]; omega : author.deleted_count + 1 ≥ BAN_PERMANENT_AT)]
      rw [if_pos (by unfold MS_PER_DAY; omega)]
      unfold deletionView
      rw [findAgent_updateAgent d2 aid aid
        (fun a => { a with banned_until := some (now + 365 * MS_PER_DAY) }) (fun a => rfl), hag2]
      simp [haid, hdc, h10]
    · rw [if_neg (by simp [hdc]; omega : ¬(author.deleted_count + 1 ≥ BAN_PERMANENT_AT))]
      by_cases h5 : dc0 + 1 ≥ BAN_7DAY_AT
      · rw [if_pos (by simp [hdc]; omega : author.deleted_count + 1 ≥ BAN_7DAY_AT)]
        rw [if_pos (by unfold MS_PER_DAY; omega)]
        unfold deletionView
        rw [findAgent_updateAgent d2 aid aid
          (fun a => { a with banned_until := some (now + 7 * MS_PER_DAY) }) (fun a => rfl), hag2]
        simp [haid, hdc, h10, h5]
      · rw [if_neg (by simp [hdc]; omega : ¬(author.deleted_count + 1 ≥ BAN_7DAY_AT))]
        rw [if_neg (by omega)]
        unfold deletionView
        rw [hag2]
        simp [hdc, hbu, h10, h5]


/-! ## Insert helpers and success-path reductions -/

@[simp] theorem insertReaction_messages (db : DB) (r : Reaction) :
    (insertReaction db r).messages = db.messages := rfl
@[simp] theorem insertReaction_agents (db : DB) (r : Reaction) :
    (insertReaction db r).agents = db.agents := rfl
@[simp] theorem insertReaction_debates (db : DB) (r : Reaction) :
    (insertReaction db r).debates = db.debates := rfl
@[simp] theorem findMessage_insertReaction (db : DB) (r : Reaction) (j : Nat) :
    findMessage (insertReaction db r) j = findMessage db j := rfl
@[simp] theorem deletionView_insertReaction (db : DB) (r : Reaction) (j : Nat) :
    deletionView (insertReaction db r) j = deletionView db j := rfl
@[simp] theorem findMessage_updateRateLimit (db : DB) (i : Nat) (t : ActionType) (now j : Nat) :
    findMessage (updateRateLimit db i t now) j = findMessage db j := rfl

theorem findMessage_updateMessage_self (db : DB) (mid : Nat) (f : Message → Message)
    (hf : ∀ m, (f m).id = m.id) (m : Message) (hm : findMessage db mid = some m) :
    findMessage (updateMessage db mid f) mid = some (f m) := by
  rw [findMessage_updateMessage db mid mid f hf, hm]
  have : m.id = mid := findMessage_id db mid m hm
  simp [this]

/-- `autoModeration` never changes a message's reports counter. -/
theorem autoModeration_reports (db : DB) (mid aid now : Nat) :
    (findMessage (autoModeration db mid aid now) mid).map (fun m => m.reports) =
      (findMessage db mid).map (fun m => m.reports) := by
  unfold autoModeration
  cases h : findMessage db mid with
  | none => simp [h]
  | some u =>
    dsimp only
    split
    · simp only [findMessage_awardEach, findMessage_checkAndBanAgent, findMessage_updateAgent]
      rw [findMessage_updateMessage_self db mid
        (fun m => { m with is_deleted := true }) (fun m => rfl) u h]
      rfl
    · rw [h]

theorem downvoteRoute_success (db : DB) (actorId mid now : Nat)
    (agent : Agent) (message : Message)
    (hfind : findAgent db actorId = some agent)
    (hban : isBanned agent now = false)
    (hmsg : findActiveMessage db mid = some message)
    (hns : (message.agent_id == actorId) = false)
    (hdup : hasReaction db mid actorId .downvote = false) :
    downvoteRoute db actorId mid now =
      (.ok .downvoted,
        updateDebateActivity
          (autoModeration
            (awardPoints
              (updateMessage
                (insertReaction db
                  { message_id := mid, agent_id := actorId, rtype := .downvote,
                    created_at := now })
                mid (fun m => { m with downvotes := m.downvotes + 1 }))
              message.agent_id DOWNVOTE_RECEIVED)
            mid message.agent_id now)
          message.debate_id) := by
  unfold downvoteRoute withAgent
  rw [hfind]
  simp only [hban, Bool.false_eq_true, if_false]
  rw [hmsg]
  dsimp only
  simp [hns, hdup]

theorem reportRoute_success (db : DB) (actorId mid now : Nat)
    (agent : Agent) (message : Message)
    (hfind : findAgent db actorId = some agent)
    (hban : isBanned agent now = false)
    (hrl : (checkRateLimit agent .report now).allowed = true)
    (hmsg : findActiveMessage db mid = some message)
    (hdup : hasReaction db mid actorId .report = false) :
    reportRoute db actorId mid now =
      (.ok .reported,
        autoModeration
          (updateRateLimit
            (updateMessage
              (insertReaction db
                { message_id := mid, agent_id := actorId, rtype := .report,
                  created_at := now })
              mid (fun m => { m with reports := m.reports + 1 }))
            actorId .report now)
          mid message.agent_id now) := by
  unfold reportRoute withAgent
  rw [hfind]
  simp only [hban, Bool.false_eq_true, if_false, hrl, Bool.not_true]
  rw [hmsg]
  dsimp only
  simp [hdup]

/-! ## C7: the report route has no self-reaction check (claim corrected) -/

/-- Counterexample to C7 as stated: agent 1 reports its own message 1; the
claim demands an InvalidArgument failure with no report recorded, but the
route succeeds and the report counter becomes 1. -/
theorem c7_self_report_counterexample :
    (reportRoute c7db 1 1 1000).1 = Except.ok Outcome.reported ∧
    (findMessage (reportRoute c7db 1 1 1000).2 1).map (fun m => m.reports) = some 1 := by
  constructor <;> rfl

/-- **C7 (amended)**: the report route shares the NotFound / Conflict
failures of the reactions and adds RateLimited, but it performs no
self-reaction check: a report by the message's own author that passes those
checks succeeds, and the report is recorded (the reports counter
increments). -/
theorem c7_report_no_self_check (db : DB) (agentId mid now : Nat)
    (agent : Agent) (message : Message)
    (hnodup : (msgIds db).Nodup)
    (hfind : findAgent db agentId = some agent)
    (hban : isBanned agent now = false)
    (hrl : (checkRateLimit agent .report now).allowed = true)
    (hmsg : findActiveMessage db mid = some message)
    (hdup : hasReaction db mid agentId .report = false)
    (hself : message.agent_id = agentId) :
    (reportRoute db agentId mid now).1 = Except.ok Outcome.reported ∧
    (findMessage (reportRoute db agentId mid now).2 mid).map (fun m => m.reports) =
      some (message.reports + 1) := by
  rw [reportRoute_success db agentId mid now agent message hfind hban hrl hmsg hdup]
  refine ⟨rfl, ?_⟩
  have hm0 : findMessage db mid = some message :=
    findMessage_of_findActive db mid message hnodup hmsg
  rw [autoModeration_reports]
  simp only [findMessage_updateRateLimit]
  have hm1 : findMessage (insertReaction db
      { message_id := mid, agent_id := agentId, rtype := .report, created_at := now }) mid =
      some message := hm0
  rw [findMessage_updateMessage_self _ mid
    (fun m => { m with reports := m.reports + 1 }) (fun m => rfl) message hm1]
  rfl

/-- Witness for `c7_report_no_self_check` at the concrete self-report
state. -/
theorem c7_report_no_self_check_witness :
    (reportRoute c7db 1 1 1000).2.messages ≠ c7db.messages ∧
    (findMessage (reportRoute c7db 1 1 1000).2 1).map (fun m => m.reports) = some 1 := by
  have h := c7_report_no_self_check c7db 1 1 1000 (mkAgent 1) (mkMessage 1 1 1)
    (by decide) rfl rfl rfl rfl rfl rfl
  refine ⟨by decide, h.2⟩


/-! ## C1: threshold deletion and ban escalation -/

/-- **C1**: for a downvote or report on a non-deleted message after which the
re-read counters satisfy `downvotes ≥ 10 ∨ reports ≥ 5`, the message is
marked deleted, the author's deletion counter is incremented by exactly one,
and — evaluated on the updated counter — `banned_until` becomes
`now + 365 days` when the counter is ≥ 10, else `now + 7 days` when it is
≥ 5, else is left unchanged; the stored value is computed from the current
time, independent of any prior ban. -/
theorem c1_threshold_deletion_and_ban (db : DB) (actorId mid now dc0 : Nat)
    (bu0 : Option Nat) (agent : Agent) (message : Message)
    (hnodup : (msgIds db).Nodup)
    (hfind : findAgent db actorId = some agent)
    (hban : isBanned agent now = false)
    (hmsg : findActiveMessage db mid = some message)
    (hauthor : deletionView db message.agent_id = some (dc0, bu0)) :
    ((message.agent_id == actorId) = false →
      hasReaction db mid actorId .downvote = false →
      (message.downvotes + 1 ≥ DOWNVOTE_THRESHOLD ∨ message.reports ≥ REPORT_THRESHOLD) →
      (findMessage (downvoteRoute db actorId mid now).2 mid).map (fun m => m.is_deleted) =
        some true ∧
      deletionView (downvoteRoute db actorId mid now).2 message.agent_id =
        some (dc0 + 1,
          if dc0 + 1 ≥ BAN_PERMANENT_AT then some (now + 365 * MS_PER_DAY)
          else if dc0 + 1 ≥ BAN_7DAY_AT then some (now + 7 * MS_PER_DAY)
          else bu0)) ∧
    ((checkRateLimit agent .report now).allowed = true →
      hasReaction db mid actorId .report = false →
      (message.reports + 1 ≥ REPORT_THRESHOLD ∨ message.downvotes ≥ DOWNVOTE_THRESHOLD) →
      (findMessage (reportRoute db actorId mid now).2 mid).map (fun m => m.is_deleted) =
        some true ∧
      deletionView (reportRoute db actorId mid now).2 message.agent_id =
        some (dc0 + 1,
          if dc0 + 1 ≥ BAN_PERMANENT_AT then some (now + 365 * MS_PER_DAY)
          else if dc0 + 1 ≥ BAN_7DAY_AT then some (now + 7 * MS_PER_DAY)
          else bu0)) := by
  have hm0 : findMessage db mid = some message :=
    findMessage_of_findActive db mid message hnodup hmsg
  constructor
  · intro hns hdup hthr
    rw [downvoteRoute_success db actorId mid now agent message hfind hban hmsg hns hdup]
    have hm2 : findMessage
        (updateMessage
          (insertReaction db
            { message_id := mid, agent_id := actorId, rtype := .downvote, created_at := now })
          mid (fun m => { m with downvotes := m.downvotes + 1 }))
        mid = some { message with downvotes := message.downvotes + 1 } :=
      findMessage_updateMessage_self _ mid
        (fun m => { m with downvotes := m.downvotes + 1 }) (fun m => rfl) message hm0
    have ha2 : deletionView
        (awardPoints
          (updateMessage
            (insertReaction db
              { message_id := mid, agent_id := actorId, rtype := .downvote, created_at := now })
            mid (fun m => { m with downvotes := m.downvotes + 1 }))
          message.agent_id DOWNVOTE_RECEIVED)
        message.agent_id = some (dc0, bu0) := by
      rw [deletionView_awardPoints]
      exact hauthor
    have spec := autoModeration_spec
      (awardPoints
        (updateMessage
          (insertReaction db
            { message_id := mid, agent_id := actorId, rtype := .downvote, created_at := now })
          mid (fun m => { m with downvotes := m.downvotes + 1 }))
        message.agent_id DOWNVOTE_RECEIVED)
      mid message.agent_id now
      { message with downvotes := message.downvotes + 1 } dc0 bu0 hm2 ha2 hthr
    refine ⟨?_, ?_⟩
    · rw [findMessage_updateDebateActivity, spec.1]
      rfl
    · rw [deletionView_updateDebateActivity]
      exact spec.2
  · intro hrl hdup hthr
    rw [reportRoute_success db actorId mid now agent message hfind hban hrl hmsg hdup]
    have hm2 : findMessage
        (updateMessage
          (insertReaction db
            { message_id := mid, agent_id := actorId, rtype := .report, created_at := now })
          mid (fun m => { m with reports := m.reports + 1 }))
        mid = some { message with reports := message.reports + 1 } :=
      findMessage_updateMessage_self _ mid
        (fun m => { m with reports := m.reports + 1 }) (fun m => rfl) message hm0
    have ha2 : deletionView
        (updateRateLimit
          (updateMessage
            (insertReaction db
              { message_id := mid, agent_id := actorId, rtype := .report, created_at := now })
            mid (fun m => { m with reports := m.reports + 1 }))
          actorId .report now)
        message.agent_id = some (dc0, bu0) := by
      rw [deletionView_updateRateLimit]
      exact hauthor
    have spec := autoModeration_spec
      (updateRateLimit
        (updateMessage
          (insertReaction db
            { message_id := mid, agent_id := actorId, rtype := .report, created_at := now })
          mid (fun m => { m with reports := m.reports + 1 }))
        actorId .report now)
      mid message.agent_id now
      { message with reports := message.reports + 1 } dc0 bu0 hm2 ha2 (Or.symm hthr)
    refine ⟨?_, ?_⟩
    · rw [spec.1]
      rfl
    · exact spec.2

/-- Witness for `c1_threshold_deletion_and_ban`: a 10th downvote on message 1
deletes it and raises its author's deletion counter to 1, which is below the
ban thresholds, so `banned_until` stays `none`. -/
theorem c1_threshold_deletion_and_ban_witness :
    (findMessage (downvoteRoute c1db 2 1 777).2 1).map (fun m => m.is_deleted) =
      some true ∧
    deletionView (downvoteRoute c1db 2 1 777).2 1 = some (1, none) := by
  have h := c1_threshold_deletion_and_ban c1db 2 1 777 0 none (mkAgent 2)
    { mkMessage 1 1 1 with downvotes := 9 } (by decide) rfl rfl rfl rfl
  have h2 := h.1 rfl rfl (by left; decide)
  exact ⟨h2.1, h2.2⟩


/-! ## Success-path reductions for the remaining routes -/

theorem find?_of_nodup_key {α : Type} (key : α → Nat) (p : α → Bool) (l : List α) (k : Nat)
    (hnodup : (l.map key).Nodup) (x : α)
    (hx : l.find? (fun a => key a == k && p a) = some x) :
    l.find? (fun a => key a == k) = some x := by
  induction l with
  | nil => simp at hx
  | cons y ys ih =>
    have hnodup' : (ys.map key).Nodup := (List.nodup_cons.mp hnodup).2
    by_cases hy : key y = k
    · rw [List.find?_cons_of_pos _ (by simp [hy])]
      by_cases hp : p y
      · rw [List.find?_cons_of_pos _ (by simp [hy, hp])] at hx
        exact hx
      · exfalso
        rw [List.find?_cons_of_neg _ (by simp [hp])] at hx
        have hmem := List.mem_of_find?_eq_some hx
        have hk : key x = k := by
          have := List.find?_some hx
          simp only [Bool.and_eq_true, beq_iff_eq] at this
          exact this.1
        have : key y ∈ ys.map key := by
          rw [hy, ← hk]
          exact List.mem_map_of_mem _ hmem
        exact (List.nodup_cons.mp hnodup).1 this
    · rw [List.find?_cons_of_neg _ (by simp [hy])]
      rw [List.find?_cons_of_neg _ (by simp [hy])] at hx
      exact ih hnodup' hx

theorem findDebate_of_findActive (db : DB) (did : Nat) (d : Debate)
    (hnodup : (db.debates.map (fun x => x.id)).Nodup)
    (h : db.debates.find? (fun x => x.id == did && x.is_active) = some d) :
    findDebate db did = some d := by
  unfold findDebate
  exact find?_of_nodup_key (fun x => x.id) (fun x => x.is_active) db.debates did hnodup d h

theorem findDebate_updateDebate_self (db : DB) (did : Nat) (f : Debate → Debate)
    (hf : ∀ d, (f d).id = d.id) (d : Debate) (hd : findDebate db did = some d) :
    findDebate (updateDebate db did f) did = some (f d) := by
  rw [findDebate_updateDebate db did did f hf, hd]
  have : d.id = did := by
    have := List.find?_some hd
    simpa using this
  simp [this]

theorem postMessageRoute_success (db : DB) (actorId did contentLen now : Nat)
    (agent : Agent) (debate : Debate)
    (hfind : findAgent db actorId = some agent)
    (hban : isBanned agent now = false)
    (hlen1 : ¬ contentLen < 2) (hlen2 : ¬ contentLen > 500)
    (hdeb : db.debates.find? (fun d => d.id == did && d.is_active) = some debate)
    (hkind : debate.dtype = DebateType.debate) :
    postMessageRoute db actorId did contentLen now =
      (.ok (.posted (checkInactiveDebateBonus db actorId debate).1
        (checkStreakBonus
          (updateDebateActivity
            (awardPoints
              (insertMessageRow (checkInactiveDebateBonus db actorId debate).2
                { id := freshMsgId (checkInactiveDebateBonus db actorId debate).2,
                  debate_id := did, agent_id := agent.id, upvotes := 0, downvotes := 0,
                  reports := 0, is_deleted := false, created_at := now })
              agent.id MESSAGE_POSTED)
            did)
          agent.id now).1),
        (checkStreakBonus
          (updateDebateActivity
            (awardPoints
              (insertMessageRow (checkInactiveDebateBonus db actorId debate).2
                { id := freshMsgId (checkInactiveDebateBonus db actorId debate).2,
                  debate_id := did, agent_id := agent.id, upvotes := 0, downvotes := 0,
                  reports := 0, is_deleted := false, created_at := now })
              agent.id MESSAGE_POSTED)
            did)
          agent.id now).2) := by
  unfold postMessageRoute withAgent
  rw [hfind]
  simp only [hban, Bool.false_eq_true, if_false]
  rw [if_neg hlen1, if_neg hlen2, hdeb]
  dsimp only
  rw [if_neg (by simp [hkind])]

theorem castVoteRoute_success (db : DB) (actorId did : Nat) (opt : String) (now : Nat)
    (agent : Agent) (debate : Debate)
    (hfind : findAgent db actorId = some agent)
    (hban : isBanned agent now = false)
    (hrl : (checkRateLimit agent .vote now).allowed = true)
    (hopt : ¬ opt = "")
    (hdeb : db.debates.find? (fun d => d.id == did && d.is_active) = some debate)
    (hkind : debate.dtype = DebateType.vote)
    (hoptin : debate.vote_options.contains opt = true)
    (hnovote : (db.vote_records.find? (fun v =>
      v.debate_id == did && v.agent_id == actorId)).isSome = false) :
    castVoteRoute db actorId did opt now =
      (.ok (.voted (checkInactiveDebateBonusVote db actorId debate).1
        (checkStreakBonus
          (awardPoints
            (updateRateLimit
              (updateDebate
                (updateDebate
                  (insertVoteRecord (checkInactiveDebateBonusVote db actorId debate).2
                    { debate_id := did, agent_id := actorId, created_at := now })
                  did (fun d => { d with votes := bumpVote debate.votes opt }))
                did (fun d =>
                  { d with bot_count := d.bot_count + 1,
                           activity_level := min 10 (voteTally (bumpVote debate.votes opt) / 5) }))
              actorId .vote now)
            actorId VOTE_PARTICIPATED)
          actorId now).1),
        (checkStreakBonus
          (awardPoints
            (updateRateLimit
              (updateDebate
                (updateDebate
                  (insertVoteRecord (checkInactiveDebateBonusVote db actorId debate).2
                    { debate_id := did, agent_id := actorId, created_at := now })
                  did (fun d => { d with votes := bumpVote debate.votes opt }))
                did (fun d =>
                  { d with bot_count := d.bot_count + 1,
                           activity_level := min 10 (voteTally (bumpVote debate.votes opt) / 5) }))
              actorId .vote now)
            actorId VOTE_PARTICIPATED)
          actorId now).2) := by
  unfold castVoteRoute withAgent
  rw [hfind]
  simp only [hban, Bool.false_eq_true, if_false, hrl, Bool.not_true]
  rw [if_neg hopt, hdeb]
  dsimp only
  rw [if_neg (by simp [hkind]),
    if_neg (by simp only [not_not]; exact hoptin),
    if_neg (by simp [hnovote])]

theorem upvoteRoute_success (db : DB) (actorId mid now : Nat)
    (agent : Agent) (message : Message)
    (hnodup : (msgIds db).Nodup)
    (hfind : findAgent db actorId = some agent)
    (hban : isBanned agent now = false)
    (hmsg : findActiveMessage db mid = some message)
    (hns : (message.agent_id == actorId) = false)
    (hdup : hasReaction db mid actorId .upvote = false) :
    upvoteRoute db actorId mid now =
      (if message.upvotes + 1 == QUALITY_UPVOTE_THRESHOLD then
        (.ok (.upvoted QUALITY_MESSAGE_BONUS),
          updateDebateActivity
            (awardPoints
              (awardPoints
                (updateMessage
                  (insertReaction db
                    { message_id := mid, agent_id := actorId, rtype := .upvote,
                      created_at := now })
                  mid (fun m => { m with upvotes := m.upvotes + 1 }))
                message.agent_id UPVOTE_RECEIVED)
              message.agent_id QUALITY_MESSAGE_BONUS)
            message.debate_id)
      else
        (.ok (.upvoted 0),
          updateDebateActivity
            (awardPoints
              (updateMessage
                (insertReaction db
                  { message_id := mid, agent_id := actorId, rtype := .upvote,
                    created_at := now })
                mid (fun m => { m with upvotes := m.upvotes + 1 }))
              message.agent_id UPVOTE_RECEIVED)
            message.debate_id)) := by
  have hm0 : findMessage db mid = some message :=
    findMessage_of_findActive db mid message hnodup hmsg
  have hm2 : findMessage
      (awardPoints
        (updateMessage
          (insertReaction db
            { message_id := mid, agent_id := actorId, rtype := .upvote, created_at := now })
          mid (fun m => { m with upvotes := m.upvotes + 1 }))
        message.agent_id UPVOTE_RECEIVED)
      mid = some { message with upvotes := message.upvotes + 1 } :=
    findMessage_updateMessage_self _ mid
      (fun m => { m with upvotes := m.upvotes + 1 }) (fun m => rfl) message hm0
  unfold upvoteRoute withAgent
  rw [hfind]
  simp only [hban, Bool.false_eq_true, if_false]
  rw [hmsg]
  dsimp only
  simp only [hns, Bool.false_eq_true, if_false, hdup]
  rw [hm2]
  dsimp only
  by_cases hq : (message.upvotes + 1 == QUALITY_UPVOTE_THRESHOLD) = true
  · simp only [hq, if_true]
  · have hq2 : (message.upvotes + 1 == QUALITY_UPVOTE_THRESHOLD) = false := by
      simpa using hq
    simp only [hq2, Bool.false_eq_true, if_false]


/-! ## C3: activity levels -/

@[simp] theorem findDebate_awardPoints (db : DB) (i : Nat) (x : Int) (j : Nat) :
    findDebate (awardPoints db i x) j = findDebate db j := rfl
@[simp] theorem findDebate_updateAgent (db : DB) (i : Nat) (f : Agent → Agent) (j : Nat) :
    findDebate (updateAgent db i f) j = findDebate db j := rfl
@[simp] theorem findDebate_updateMessage (db : DB) (i : Nat) (f : Message → Message) (j : Nat) :
    findDebate (updateMessage db i f) j = findDebate db j := rfl
@[simp] theorem findDebate_insertReaction (db : DB) (r : Reaction) (j : Nat) :
    findDebate (insertReaction db r) j = findDebate db j := rfl
@[simp] theorem findDebate_insertMessageRow (db : DB) (m : Message) (j : Nat) :
    findDebate (insertMessageRow db m) j = findDebate db j := rfl
@[simp] theorem findDebate_insertVoteRecord (db : DB) (v : VoteRecord) (j : Nat) :
    findDebate (insertVoteRecord db v) j = findDebate db j := rfl
@[simp] theorem findDebate_updateRateLimit (db : DB) (i : Nat) (t : ActionType) (now j : Nat) :
    findDebate (updateRateLimit db i t now) j = findDebate db j := rfl

@[simp] theorem findDebate_awardEach (db : DB) (ids : List Nat) (x : Int) (j : Nat) :
    findDebate (awardEach db ids x) j = findDebate db j := by
  unfold findDebate
  rw [awardEach_debates]

@[simp] theorem findDebate_checkAndBanAgent (db : DB) (i now j : Nat) :
    findDebate (checkAndBanAgent db i now) j = findDebate db j := by
  unfold findDebate
  rw [checkAndBanAgent_debates]

@[simp] theorem findDebate_checkActivationBonus (db : DB) (i p n j : Nat) :
    findDebate (checkActivationBonus db i p n) j = findDebate db j := by
  unfold checkActivationBonus
  split <;> simp

@[simp] theorem findDebate_checkStreakBonus (db : DB) (i now j : Nat) :
    findDebate (checkStreakBonus db i now).2 j = findDebate db j := by
  unfold checkStreakBonus
  split <;> rfl

@[simp] theorem findDebate_checkInactiveDebateBonus (db : DB) (i : Nat) (d : Debate) (j : Nat) :
    findDebate (checkInactiveDebateBonus db i d).2 j = findDebate db j := by
  unfold checkInactiveDebateBonus
  repeat' split
  all_goals rfl

@[simp] theorem findDebate_checkInactiveDebateBonusVote (db : DB) (i : Nat) (d : Debate) (j : Nat) :
    findDebate (checkInactiveDebateBonusVote db i d).2 j = findDebate db j := by
  unfold checkInactiveDebateBonusVote
  repeat' split
  all_goals rfl

@[simp] theorem findDebate_autoModeration (db : DB) (mid aid now j : Nat) :
    findDebate (autoModeration db mid aid now) j = findDebate db j := by
  unfold autoModeration
  repeat' split
  all_goals simp

@[simp] theorem checkStreakBonus_messages (db : DB) (i now : Nat) :
    (checkStreakBonus db i now).2.messages = db.messages := by
  unfold checkStreakBonus
  split <;> rfl

@[simp] theorem checkInactiveDebateBonus_messages (db : DB) (i : Nat) (d : Debate) :
    (checkInactiveDebateBonus db i d).2.messages = db.messages := by
  unfold checkInactiveDebateBonus
  repeat' split
  all_goals rfl

@[simp] theorem checkInactiveDebateBonusVote_messages (db : DB) (i : Nat) (d : Debate) :
    (checkInactiveDebateBonusVote db i d).2.messages = db.messages := by
  unfold checkInactiveDebateBonusVote
  repeat' split
  all_goals rfl

theorem stats_congr (db1 db2 : DB) (h : db1.messages = db2.messages) (did : Nat) :
    msgCount db1 did = msgCount db2 did ∧ uniqueAgents db1 did = uniqueAgents db2 did ∧
      totalUpvotes db1 did = totalUpvotes db2 did := by
  unfold msgCount uniqueAgents totalUpvotes debateMessages
  rw [h]
  exact ⟨rfl, rfl, rfl⟩

theorem level_checkBestDebateBonus (db : DB) (did : Nat) (d2 : Debate) (j : Nat) :
    (findDebate (checkBestDebateBonus db did d2) j).map (fun d => d.activity_level) =
      (findDebate db j).map (fun d => d.activity_level) := by
  unfold checkBestDebateBonus
  try dsimp only
  repeat' split
  all_goals
    first
    | rfl
    | (rw [findDebate_awardEach,
        findDebate_updateDebate db did j (fun d => { d with best_rewarded := true })
          (fun d => rfl)]
       cases h : findDebate db j with
       | none => rfl
       | some dd => by_cases hdd : dd.id = did <;> simp [hdd])

/-- After `updateDebateActivity`, the stored level of the debate is the
activity formula evaluated over its non-deleted messages. -/
theorem updateDebateActivity_level (db : DB) (did : Nat) (d : Debate)
    (hd : findDebate db did = some d) :
    ∃ d', findDebate (updateDebateActivity db did) did = some d' ∧
      d'.activity_level =
        activityLevelFor (msgCount db did) (uniqueAgents db did) (totalUpvotes db did) := by
  unfold updateDebateActivity
  rw [hd]
  dsimp only
  set mc := msgCount db did with hmc
  set ua := uniqueAgents db did with hua
  set tu := totalUpvotes db did with htu
  set lv := activityLevelFor mc ua tu with hlv
  have h1 : findDebate (updateDebate db did (setStats mc ua tu lv)) did =
      some (setStats mc ua tu lv d) :=
    findDebate_updateDebate_self db did (setStats mc ua tu lv) (fun x => rfl) d hd
  have h2 : findDebate
      (checkActivationBonus (updateDebate db did (setStats mc ua tu lv)) did
        d.activity_level lv) did = some (setStats mc ua tu lv d) := by
    rw [findDebate_checkActivationBonus]
    exact h1
  rw [h2]
  dsimp only
  have h3 := level_checkBestDebateBonus
    (checkActivationBonus (updateDebate db did (setStats mc ua tu lv)) did
      d.activity_level lv) did (setStats mc ua tu lv d) did
  rw [h2] at h3
  cases hfin : findDebate
      (checkBestDebateBonus
        (checkActivationBonus (updateDebate db did (setStats mc ua tu lv)) did
          d.activity_level lv) did (setStats mc ua tu lv d)) did with
  | none => rw [hfin] at h3; simp at h3
  | some dfin =>
    rw [hfin] at h3
    exact ⟨dfin, rfl, by simpa [setStats] using h3⟩


/-- Counterexample to C3 as stated: the 5th report on message 1 deletes it —
a mutation that changes the activity-formula inputs — but the report route
performs no recomputation, so the stored level stays 2 while the formula over
the remaining non-deleted messages gives 0. -/
theorem c3_report_stale_level_counterexample :
    (reportRoute c3db 2 1 1000).1 = Except.ok Outcome.reported ∧
    (findMessage (reportRoute c3db 2 1 1000).2 1).map (fun m => m.is_deleted) = some true ∧
    (findDebate (reportRoute c3db 2 1 1000).2 1).map (fun d => d.activity_level) = some 2 ∧
    activityLevelFor (msgCount (reportRoute c3db 2 1 1000).2 1)
      (uniqueAgents (reportRoute c3db 2 1 1000).2 1)
      (totalUpvotes (reportRoute c3db 2 1 1000).2 1) = 0 ∧
    (findDebate (reportRoute c3db 2 1 1000).2 1).map (fun d => d.activity_level) ≠
      some (activityLevelFor (msgCount (reportRoute c3db 2 1 1000).2 1)
        (uniqueAgents (reportRoute c3db 2 1 1000).2 1)
        (totalUpvotes (reportRoute c3db 2 1 1000).2 1)) := by
  refine ⟨rfl, rfl, rfl, rfl, by decide⟩

/-- **C3 (amended)**: after a successful message post, upvote, or downvote
the stored activity level of the debate equals
`min(10, floor(messageCount/10 + distinctAgents·0.5 + totalUpvotes/20))`
computed over the non-deleted messages of the resulting state, and after a
successful vote the stored level equals `min(10, floor(totalVotesCast/5))`
over the stored tally; the report route, however, recomputes nothing — it
leaves every debate row untouched even when a report-triggered deletion
changes the formula's inputs. -/
theorem c3_activity_levels (db : DB) (actorId now : Nat) (agent : Agent)
    (hnodupm : (msgIds db).Nodup)
    (hnodupd : (db.debates.map (fun x => x.id)).Nodup)
    (hfind : findAgent db actorId = some agent)
    (hban : isBanned agent now = false) :
    (∀ did contentLen debate, ¬ contentLen < 2 → ¬ contentLen > 500 →
      db.debates.find? (fun d => d.id == did && d.is_active) = some debate →
      debate.dtype = DebateType.debate →
      ∃ d', findDebate (postMessageRoute db actorId did contentLen now).2 did = some d' ∧
        d'.activity_level = activityLevelFor
          (msgCount (postMessageRoute db actorId did contentLen now).2 did)
          (uniqueAgents (postMessageRoute db actorId did contentLen now).2 did)
          (totalUpvotes (postMessageRoute db actorId did contentLen now).2 did)) ∧
    (∀ mid message d0, findActiveMessage db mid = some message →
      (message.agent_id == actorId) = false →
      hasReaction db mid actorId .upvote = false →
      findDebate db message.debate_id = some d0 →
      ∃ d', findDebate (upvoteRoute db actorId mid now).2 message.debate_id = some d' ∧
        d'.activity_level = activityLevelFor
          (msgCount (upvoteRoute db actorId mid now).2 message.debate_id)
          (uniqueAgents (upvoteRoute db actorId mid now).2 message.debate_id)
          (totalUpvotes (upvoteRoute db actorId mid now).2 message.debate_id)) ∧
    (∀ mid message d0, findActiveMessage db mid = some message →
      (message.agent_id == actorId) = false →
      hasReaction db mid actorId .downvote = false →
      findDebate db message.debate_id = some d0 →
      ∃ d', findDebate (downvoteRoute db actorId mid now).2 message.debate_id = some d' ∧
        d'.activity_level = activityLevelFor
          (msgCount (downvoteRoute db actorId mid now).2 message.debate_id)
          (uniqueAgents (downvoteRoute db actorId mid now).2 message.debate_id)
          (totalUpvotes (downvoteRoute db actorId mid now).2 message.debate_id)) ∧
    (∀ vdid opt vdebate, ¬ opt = "" →
      (checkRateLimit agent .vote now).allowed = true →
      db.debates.find? (fun d => d.id == vdid && d.is_active) = some vdebate →
      vdebate.dtype = DebateType.vote →
      vdebate.vote_options.contains opt = true →
      (db.vote_records.find? (fun v =>
        v.debate_id == vdid && v.agent_id == actorId)).isSome = false →
      ∃ d', findDebate (castVoteRoute db actorId vdid opt now).2 vdid = some d' ∧
        d'.votes = bumpVote vdebate.votes opt ∧
        d'.activity_level = min 10 (voteTally d'.votes / 5)) ∧
    (∀ mid j, findDebate (reportRoute db actorId mid now).2 j = findDebate db j) := by
  refine ⟨?_, ?_, ?_, ?_, ?_⟩
  · intro did contentLen debate hlen1 hlen2 hdeb hkind
    rw [postMessageRoute_success db actorId did contentLen now agent debate
      hfind hban hlen1 hlen2 hdeb hkind]
    have hX : findDebate
        (awardPoints
          (insertMessageRow (checkInactiveDebateBonus db actorId debate).2
            { id := freshMsgId (checkInactiveDebateBonus db actorId debate).2,
              debate_id := did, agent_id := agent.id, upvotes := 0, downvotes := 0,
              reports := 0, is_deleted := false, created_at := now })
          agent.id MESSAGE_POSTED)
        did = some debate := by
      simp only [findDebate_awardPoints, findDebate_insertMessageRow,
        findDebate_checkInactiveDebateBonus]
      exact findDebate_of_findActive db did debate hnodupd hdeb
    obtain ⟨d', hd', hlvl⟩ := updateDebateActivity_level _ did debate hX
    refine ⟨d', ?_, ?_⟩
    · rw [findDebate_checkStreakBonus]
      exact hd'
    · obtain ⟨e1, e2, e3⟩ := stats_congr
        (checkStreakBonus
          (updateDebateActivity
            (awardPoints
              (insertMessageRow (checkInactiveDebateBonus db actorId debate).2
                { id := freshMsgId (checkInactiveDebateBonus db actorId debate).2,
                  debate_id := did, agent_id := agent.id, upvotes := 0, downvotes := 0,
                  reports := 0, is_deleted := false, created_at := now })
              agent.id MESSAGE_POSTED)
            did)
          agent.id now).2
        (awardPoints
          (insertMessageRow (checkInactiveDebateBonus db actorId debate).2
            { id := freshMsgId (checkInactiveDebateBonus db actorId debate).2,
              debate_id := did, agent_id := agent.id, upvotes := 0, downvotes := 0,
              reports := 0, is_deleted := false, created_at := now })
          agent.id MESSAGE_POSTED)
        (by simp) did
      rw [e1, e2, e3]
      exact hlvl
  · intro mid message d0 hmsg hns hdup hd0
    rw [upvoteRoute_success db actorId mid now agent message hnodupm
      hfind hban hmsg hns hdup]
    by_cases hq : (message.upvotes + 1 == QUALITY_UPVOTE_THRESHOLD) = true
    · simp only [hq, if_true]
      have hX : findDebate
          (awardPoints
            (awardPoints
              (updateMessage
                (insertReaction db
                  { message_id := mid, agent_id := actorId, rtype := .upvote,
                    created_at := now })
                mid (fun m => { m with upvotes := m.upvotes + 1 }))
              message.agent_id UPVOTE_RECEIVED)
            message.agent_id QUALITY_MESSAGE_BONUS)
          message.debate_id = some d0 := hd0
      obtain ⟨d', hd', hlvl⟩ := updateDebateActivity_level _ message.debate_id d0 hX
      refine ⟨d', hd', ?_⟩
      obtain ⟨e1, e2, e3⟩ := stats_congr
        (updateDebateActivity
          (awardPoints
            (awardPoints
              (updateMessage
                (insertReaction db
                  { message_id := mid, agent_id := actorId, rtype := .upvote,
                    created_at := now })
                mid (fun m => { m with upvotes := m.upvotes + 1 }))
              message.agent_id UPVOTE_RECEIVED)
            message.agent_id QUALITY_MESSAGE_BONUS)
          message.debate_id)
        (awardPoints
          (awardPoints
            (updateMessage
              (insertReaction db
                { message_id := mid, agent_id := actorId, rtype := .upvote,
                  created_at := now })
              mid (fun m => { m with upvotes := m.upvotes + 1 }))
            message.agent_id UPVOTE_RECEIVED)
          message.agent_id QUALITY_MESSAGE_BONUS)
        (by simp) message.debate_id
      rw [e1, e2, e3]
      exact hlvl
    · have hq2 : (message.upvotes + 1 == QUALITY_UPVOTE_THRESHOLD) = false := by
        simpa using hq
      simp only [hq2, Bool.false_eq_true, if_false]
      have hX : findDebate
          (awardPoints
            (updateMessage
              (insertReaction db
                { message_id := mid, agent_id := actorId, rtype := .upvote,
                  created_at := now })
              mid (fun m => { m with upvotes := m.upvotes + 1 }))
            message.agent_id UPVOTE_RECEIVED)
          message.debate_id = some d0 := hd0
      obtain ⟨d', hd', hlvl⟩ := updateDebateActivity_level _ message.debate_id d0 hX
      refine ⟨d', hd', ?_⟩
      obtain ⟨e1, e2, e3⟩ := stats_congr
        (updateDebateActivity
          (awardPoints
            (updateMessage
              (insertReaction db
                { message_id := mid, agent_id := actorId, rtype := .upvote,
                  created_at := now })
              mid (fun m => { m with upvotes := m.upvotes + 1 }))
            message.agent_id UPVOTE_RECEIVED)
          message.debate_id)
        (awardPoints
          (updateMessage
            (insertReaction db
              { message_id := mid, agent_id := actorId, rtype := .upvote,
                created_at := now })
            mid (fun m => { m with upvotes := m.upvotes + 1 }))
          message.agent_id UPVOTE_RECEIVED)
        (by simp) message.debate_id
      rw [e1, e2, e3]
      exact hlvl
  · intro mid message d0 hmsg hns hdup hd0
    rw [downvoteRoute_success db actorId mid now agent message hfind hban hmsg hns hdup]
    have hX : findDebate
        (autoModeration
          (awardPoints
            (updateMessage
              (insertReaction db
                { message_id := mid, agent_id := actorId, rtype := .downvote,
                  created_at := now })
              mid (fun m => { m with downvotes := m.downvotes + 1 }))
            message.agent_id DOWNVOTE_RECEIVED)
          mid message.agent_id now)
        message.debate_id = some d0 := by
      rw [findDebate_autoModeration]
      exact hd0
    obtain ⟨d', hd', hlvl⟩ := updateDebateActivity_level _ message.debate_id d0 hX
    refine ⟨d', hd', ?_⟩
    obtain ⟨e1, e2, e3⟩ := stats_congr
      (updateDebateActivity
        (autoModeration
          (awardPoints
            (updateMessage
              (insertReaction db
                { message_id := mid, agent_id := actorId, rtype := .downvote,
                  created_at := now })
              mid (fun m => { m with downvotes := m.downvotes + 1 }))
            message.agent_id DOWNVOTE_RECEIVED)
          mid message.agent_id now)
        message.debate_id)
      (autoModeration
        (awardPoints
          (updateMessage
            (insertReaction db
              { message_id := mid, agent_id := actorId, rtype := .downvote,
                created_at := now })
            mid (fun m => { m with downvotes := m.downvotes + 1 }))
          message.agent_id DOWNVOTE_RECEIVED)
        mid message.agent_id now)
      (by simp) message.debate_id
    rw [e1, e2, e3]
    exact hlvl
  · intro vdid opt vdebate hopt hrl hdeb hkind hoptin hnovote
    rw [castVoteRoute_success db actorId vdid opt now agent vdebate
      hfind hban hrl hopt hdeb hkind hoptin hnovote]
    have hv0 : findDebate
        (insertVoteRecord (checkInactiveDebateBonusVote db actorId vdebate).2
          { debate_id := vdid, agent_id := actorId, created_at := now })
        vdid = some vdebate := by
      simp only [findDebate_insertVoteRecord, findDebate_checkInactiveDebateBonusVote]
      exact findDebate_of_findActive db vdid vdebate hnodupd hdeb
    have hv1 := findDebate_updateDebate_self _ vdid
      (fun d => { d with votes := bumpVote vdebate.votes opt }) (fun d => rfl)
      vdebate hv0
    have hv2 := findDebate_updateDebate_self _ vdid
      (fun d =>
        { d with bot_count := d.bot_count + 1,
                 activity_level := min 10 (voteTally (bumpVote vdebate.votes opt) / 5) })
      (fun d => rfl)
      { vdebate with votes := bumpVote vdebate.votes opt } hv1
    refine ⟨{ { vdebate with votes := bumpVote vdebate.votes opt } with
        bot_count := { vdebate with votes := bumpVote vdebate.votes opt }.bot_count + 1,
        activity_level := min 10 (voteTally (bumpVote vdebate.votes opt) / 5) }, ?_, rfl, rfl⟩
    simp only [findDebate_checkStreakBonus, findDebate_awardPoints,
      findDebate_updateRateLimit]
    exact hv2
  · intro mid j
    unfold reportRoute withAgent
    rw [hfind]
    simp only [hban, Bool.false_eq_true, if_false]
    repeat' split
    all_goals simp

/-- Witness for `c3_activity_levels`: a post into debate 1 and the
report route's no-touch property on the concrete witness state. -/
theorem c3_activity_levels_witness :
    (∃ d', findDebate (postMessageRoute c3wdb 2 1 10 555).2 1 = some d' ∧
      d'.activity_level = activityLevelFor
        (msgCount (postMessageRoute c3wdb 2 1 10 555).2 1)
        (uniqueAgents (postMessageRoute c3wdb 2 1 10 555).2 1)
        (totalUpvotes (postMessageRoute c3wdb 2 1 10 555).2 1)) ∧
    findDebate (reportRoute c3wdb 2 1 555).2 1 = findDebate c3wdb 1 := by
  have h := c3_activity_levels c3wdb 2 555 (mkAgent 2) (by decide) (by decide) rfl rfl
  exact ⟨h.1 1 10 (mkDebate 1 DebateType.debate) (by decide) (by decide) rfl rfl,
    h.2.2.2.2 1 1⟩


/-! ## C5: the streak bonus re-fires (code bug) -/

/-- **C5** evaluated at the failing input: agent 1 posts in debates 1, 2 and
3 and then again in debate 1, all inside 24 hours. The third action pays the
streak bonus (+20) as the distinct-debate count reaches 3 — and the fourth
action, whose distinct-debate count is still exactly 3 (not a transition),
pays the +20 again, contradicting the claim and the code's own
duplicate-prevention comment: `checkStreakBonus` tests `size === 3` on the
post-action count instead of a 2→3 transition. -/
theorem c5_streak_double_payment :
    (runOp (runTrace c5db [(Op.post 1 1 10, 1000), (Op.post 1 2 10, 2000)])
        (Op.post 1 3 10) 3000).1 = Except.ok (Outcome.posted 8 20) ∧
    (runOp (runTrace c5db [(Op.post 1 1 10, 1000), (Op.post 1 2 10, 2000),
        (Op.post 1 3 10, 3000)])
        (Op.post 1 1 10) 4000).1 = Except.ok (Outcome.posted 0 20) := by
  constructor <;> rfl


/-! ## C4: quality-bonus machinery — message-id bookkeeping -/

@[simp] theorem msgIds_updateAgent (db : DB) (i : Nat) (f : Agent → Agent) :
    msgIds (updateAgent db i f) = msgIds db := rfl
@[simp] theorem msgIds_updateDebate (db : DB) (i : Nat) (f : Debate → Debate) :
    msgIds (updateDebate db i f) = msgIds db := rfl
@[simp] theorem msgIds_insertReaction (db : DB) (r : Reaction) :
    msgIds (insertReaction db r) = msgIds db := rfl
@[simp] theorem msgIds_insertVoteRecord (db : DB) (v : VoteRecord) :
    msgIds (insertVoteRecord db v) = msgIds db := rfl
@[simp] theorem msgIds_awardPoints (db : DB) (i : Nat) (x : Int) :
    msgIds (awardPoints db i x) = msgIds db := rfl
@[simp] theorem msgIds_updateRateLimit (db : DB) (i : Nat) (t : ActionType) (now : Nat) :
    msgIds (updateRateLimit db i t now) = msgIds db := rfl

@[simp] theorem msgIds_awardEach (db : DB) (ids : List Nat) (x : Int) :
    msgIds (awardEach db ids x) = msgIds db := by
  unfold msgIds
  rw [awardEach_messages]
@[simp] theorem msgIds_checkAndBanAgent (db : DB) (i now : Nat) :
    msgIds (checkAndBanAgent db i now) = msgIds db := by
  unfold msgIds
  rw [checkAndBanAgent_messages]
@[simp] theorem msgIds_checkActivationBonus (db : DB) (i p n : Nat) :
    msgIds (checkActivationBonus db i p n) = msgIds db := by
  unfold msgIds
  rw [checkActivationBonus_messages]
@[simp] theorem msgIds_checkBestDebateBonus (db : DB) (i : Nat) (d : Debate) :
    msgIds (checkBestDebateBonus db i d) = msgIds db := by
  unfold msgIds
  rw [checkBestDebateBonus_messages]
@[simp] theorem msgIds_updateDebateActivity (db : DB) (i : Nat) :
    msgIds (updateDebateActivity db i) = msgIds db := by
  unfold msgIds
  rw [updateDebateActivity_messages]
@[simp] theorem msgIds_checkStreakBonus (db : DB) (i now : Nat) :
    msgIds (checkStreakBonus db i now).2 = msgIds db := by
  unfold msgIds
  rw [checkStreakBonus_messages]
@[simp] theorem msgIds_checkInactiveDebateBonus (db : DB) (i : Nat) (d : Debate) :
    msgIds (checkInactiveDebateBonus db i d).2 = msgIds db := by
  unfold msgIds
  rw [checkInactiveDebateBonus_messages]
@[simp] theorem msgIds_checkInactiveDebateBonusVote (db : DB) (i : Nat) (d : Debate) :
    msgIds (checkInactiveDebateBonusVote db i d).2 = msgIds db := by
  unfold msgIds
  rw [checkInactiveDebateBonusVote_messages]
@[simp] theorem msgIds_insertMessageRow (db : DB) (m : Message) :
    msgIds (insertMessageRow db m) = msgIds db ++ [m.id] := by
  unfold msgIds insertMessageRow
  simp

theorem msgIds_updateMessage (db : DB) (i : Nat) (f : Message → Message)
    (hf : ∀ m, (f m).id = m.id) :
    msgIds (updateMessage db i f) = msgIds db := by
  unfold msgIds updateMessage
  dsimp only
  rw [List.map_map]
  congr 1
  funext m
  by_cases h : m.id = i <;> simp [h, hf]

@[simp] theorem msgIds_updateMessage_setDeleted (db : DB) (i : Nat) :
    msgIds (updateMessage db i (fun m => { m with is_deleted := true })) = msgIds db :=
  msgIds_updateMessage db i _ (fun m => rfl)
@[simp] theorem msgIds_updateMessage_bumpUpvotes (db : DB) (i : Nat) :
    msgIds (updateMessage db i (fun m => { m with upvotes := m.upvotes + 1 })) = msgIds db :=
  msgIds_updateMessage db i _ (fun m => rfl)
@[simp] theorem msgIds_updateMessage_bumpDownvotes (db : DB) (i : Nat) :
    msgIds (updateMessage db i (fun m => { m with downvotes := m.downvotes + 1 })) = msgIds db :=
  msgIds_updateMessage db i _ (fun m => rfl)
@[simp] theorem msgIds_updateMessage_bumpReports (db : DB) (i : Nat) :
    msgIds (updateMessage db i (fun m => { m with reports := m.reports + 1 })) = msgIds db :=
  msgIds_updateMessage db i _ (fun m => rfl)

@[simp] theorem msgIds_autoModeration (db : DB) (mid aid now : Nat) :
    msgIds (autoModeration db mid aid now) = msgIds db := by
  unfold autoModeration
  repeat' split
  all_goals simp

@[simp] theorem freshMsgId_checkInactiveDebateBonus (db : DB) (i : Nat) (d : Debate) :
    freshMsgId (checkInactiveDebateBonus db i d).2 = freshMsgId db := by
  unfold freshMsgId
  rw [checkInactiveDebateBonus_messages]

theorem mem_le_foldr_max (l : List Nat) (v : Nat) (h : v ∈ l) : v ≤ l.foldr max 0 := by
  induction l with
  | nil => cases h
  | cons x xs ih =>
    rcases List.mem_cons.mp h with rfl | h2
    · exact le_max_left _ _
    · exact le_trans (ih h2) (le_max_right _ _)

theorem freshMsgId_not_mem (db : DB) : freshMsgId db ∉ msgIds db := by
  intro h
  have := mem_le_foldr_max (msgIds db) _ h
  unfold freshMsgId at this
  unfold msgIds at this
  omega

/-- One step either keeps the message-id column or appends one fresh id. -/
theorem msgIds_step (db : DB) (o : Op × Nat) :
    msgIds (stepOp db o) = msgIds db ∨
      ∃ m : Nat, m ∉ msgIds db ∧ msgIds (stepOp db o) = msgIds db ++ [m] := by
  obtain ⟨op, now⟩ := o
  cases op with
  | post a did cl =>
    unfold stepOp runOp postMessageRoute withAgent
    dsimp only
    repeat' split
    all_goals
      first
      | (right
         refine ⟨freshMsgId db, freshMsgId_not_mem db, ?_⟩
         simp
         done)
      | (left; simp)
  | vote a did opt =>
    unfold stepOp runOp castVoteRoute withAgent
    dsimp only
    repeat' split
    all_goals (left; simp)
  | upvote a mid =>
    unfold stepOp runOp upvoteRoute withAgent
    dsimp only
    repeat' split
    all_goals (left; simp)
  | downvote a mid =>
    unfold stepOp runOp downvoteRoute withAgent
    dsimp only
    repeat' split
    all_goals (left; simp)
  | report a mid =>
    unfold stepOp runOp reportRoute withAgent
    dsimp only
    repeat' split
    all_goals (left; simp)

theorem nodup_step (db : DB) (o : Op × Nat) (h : (msgIds db).Nodup) :
    (msgIds (stepOp db o)).Nodup := by
  rcases msgIds_step db o with he | ⟨m, hm, he⟩
  · rw [he]
    exact h
  · rw [he]
    rw [List.nodup_append]
    refine ⟨h, List.nodup_singleton m, ?_⟩
    intro x hx hx2
    simp only [List.mem_singleton] at hx2
    subst hx2
    exact hm hx


/-! ## C4: quality-bonus machinery — the upvote counter is monotone -/

@[simp] theorem upvCount_updateAgent (db : DB) (i : Nat) (f : Agent → Agent) (mid : Nat) :
    upvCount (updateAgent db i f) mid = upvCount db mid := rfl
@[simp] theorem upvCount_updateDebate (db : DB) (i : Nat) (f : Debate → Debate) (mid : Nat) :
    upvCount (updateDebate db i f) mid = upvCount db mid := rfl
@[simp] theorem upvCount_insertReaction (db : DB) (r : Reaction) (mid : Nat) :
    upvCount (insertReaction db r) mid = upvCount db mid := rfl
@[simp] theorem upvCount_insertVoteRecord (db : DB) (v : VoteRecord) (mid : Nat) :
    upvCount (insertVoteRecord db v) mid = upvCount db mid := rfl
@[simp] theorem upvCount_awardPoints (db : DB) (i : Nat) (x : Int) (mid : Nat) :
    upvCount (awardPoints db i x) mid = upvCount db mid := rfl
@[simp] theorem upvCount_updateRateLimit (db : DB) (i : Nat) (t : ActionType) (now mid : Nat) :
    upvCount (updateRateLimit db i t now) mid = upvCount db mid := rfl

@[simp] theorem upvCount_awardEach (db : DB) (ids : List Nat) (x : Int) (mid : Nat) :
    upvCount (awardEach db ids x) mid = upvCount db mid := by
  unfold upvCount
  rw [findMessage_awardEach]
@[simp] theorem upvCount_checkAndBanAgent (db : DB) (i now mid : Nat) :
    upvCount (checkAndBanAgent db i now) mid = upvCount db mid := by
  unfold upvCount
  rw [findMessage_checkAndBanAgent]
@[simp] theorem upvCount_updateDebateActivity (db : DB) (i mid : Nat) :
    upvCount (updateDebateActivity db i) mid = upvCount db mid := by
  unfold upvCount
  rw [findMessage_updateDebateActivity]
@[simp] theorem upvCount_checkStreakBonus (db : DB) (i now mid : Nat) :
    upvCount (checkStreakBonus db i now).2 mid = upvCount db mid := by
  unfold upvCount findMessage
  rw [checkStreakBonus_messages]
@[simp] theorem upvCount_checkInactiveDebateBonus (db : DB) (i : Nat) (d : Debate) (mid : Nat) :
    upvCount (checkInactiveDebateBonus db i d).2 mid = upvCount db mid := by
  unfold upvCount findMessage
  rw [checkInactiveDebateBonus_messages]
@[simp] theorem upvCount_checkInactiveDebateBonusVote (db : DB) (i : Nat) (d : Debate) (mid : Nat) :
    upvCount (checkInactiveDebateBonusVote db i d).2 mid = upvCount db mid := by
  unfold upvCount findMessage
  rw [checkInactiveDebateBonusVote_messages]

theorem upvCount_updateMessage_keep (db : DB) (i : Nat) (f : Message → Message)
    (hid : ∀ m, (f m).id = m.id) (hup : ∀ m, (f m).upvotes = m.upvotes) (mid : Nat) :
    upvCount (updateMessage db i f) mid = upvCount db mid := by
  unfold upvCount
  rw [findMessage_updateMessage db i mid f hid]
  cases h : findMessage db mid with
  | none => rfl
  | some m =>
    dsimp only [Option.map_some]
    by_cases hmi : m.id = i <;> simp [hmi, hup m]

@[simp] theorem upvCount_updateMessage_setDeleted (db : DB) (i mid : Nat) :
    upvCount (updateMessage db i (fun m => { m with is_deleted := true })) mid =
      upvCount db mid :=
  upvCount_updateMessage_keep db i (fun m => { m with is_deleted := true })
    (fun m => rfl) (fun m => rfl) mid
@[simp] theorem upvCount_updateMessage_bumpDownvotes (db : DB) (i mid : Nat) :
    upvCount (updateMessage db i (fun m => { m with downvotes := m.downvotes + 1 })) mid =
      upvCount db mid :=
  upvCount_updateMessage_keep db i (fun m => { m with downvotes := m.downvotes + 1 })
    (fun m => rfl) (fun m => rfl) mid
@[simp] theorem upvCount_updateMessage_bumpReports (db : DB) (i mid : Nat) :
    upvCount (updateMessage db i (fun m => { m with reports := m.reports + 1 })) mid =
      upvCount db mid :=
  upvCount_updateMessage_keep db i (fun m => { m with reports := m.reports + 1 })
    (fun m => rfl) (fun m => rfl) mid

@[simp] theorem upvCount_autoModeration (db : DB) (mid2 aid now mid : Nat) :
    upvCount (autoModeration db mid2 aid now) mid = upvCount db mid := by
  unfold autoModeration
  repeat' split
  all_goals simp

theorem upvCount_updateMessage_bumpUpvotes_le (db : DB) (i mid : Nat) :
    upvCount db mid ≤
      upvCount (updateMessage db i (fun m => { m with upvotes := m.upvotes + 1 })) mid := by
  unfold upvCount
  rw [findMessage_updateMessage db i mid
    (fun m => { m with upvotes := m.upvotes + 1 }) (fun m => rfl)]
  cases h : findMessage db mid with
  | none => simp
  | some m =>
    dsimp only [Option.map_some]
    by_cases hmi : m.id = i <;> simp [hmi]

theorem upvCount_insertMessageRow_le (db : DB) (m : Message) (mid : Nat) :
    upvCount db mid ≤ upvCount (insertMessageRow db m) mid := by
  unfold upvCount findMessage insertMessageRow
  dsimp only
  rw [List.find?_append]
  cases h : db.messages.find? (fun x => x.id == mid) with
  | none => simp
  | some u => simp [h]

/-- The upvote counter of a message never decreases across any operation. -/
theorem upvCount_step_le (db : DB) (o : Op × Nat) (mid : Nat) :
    upvCount db mid ≤ upvCount (stepOp db o) mid := by
  obtain ⟨op, now⟩ := o
  cases op with
  | post a did cl =>
    unfold stepOp runOp postMessageRoute withAgent
    dsimp only
    repeat' split
    all_goals
      first
      | (simp only [upvCount_checkStreakBonus, upvCount_updateDebateActivity,
          upvCount_awardPoints]
         refine le_trans (le_of_eq ?_) (upvCount_insertMessageRow_le _ _ mid)
         exact (upvCount_checkInactiveDebateBonus _ _ _ mid).symm)
      | simp
  | vote a did opt =>
    unfold stepOp runOp castVoteRoute withAgent
    dsimp only
    repeat' split
    all_goals simp
  | upvote a mid2 =>
    unfold stepOp runOp upvoteRoute withAgent
    dsimp only
    repeat' split
    all_goals
      first
      | (simp only [upvCount_updateDebateActivity, upvCount_awardPoints]
         exact upvCount_updateMessage_bumpUpvotes_le _ _ mid)
      | simp
  | downvote a mid2 =>
    unfold stepOp runOp downvoteRoute withAgent
    dsimp only
    repeat' split
    all_goals simp
  | report a mid2 =>
    unfold stepOp runOp reportRoute withAgent
    dsimp only
    repeat' split
    all_goals simp


/-! ## C4: quality-bonus machinery — characterizing a paying step -/

theorem upvoteRoute_ok_inv (db : DB) (a mid now : Nat) (q : Int)
    (h : (upvoteRoute db a mid now).1 = Except.ok (Outcome.upvoted q)) :
    ∃ agent message, findAgent db a = some agent ∧ isBanned agent now = false ∧
      findActiveMessage db mid = some message ∧ (message.agent_id == a) = false ∧
      hasReaction db mid a .upvote = false := by
  unfold upvoteRoute withAgent at h
  split at h
  · simp at h
  · rename_i agent hagent
    split at h
    · simp at h
    · rename_i hb
      split at h
      · simp at h
      · rename_i message hmsg
        split at h
        · simp at h
        · rename_i hself
          split at h
          · simp at h
          · rename_i hdup
            exact ⟨agent, message, hagent, by simpa using hb, hmsg,
              by simpa using hself, by simpa using hdup⟩

/-- A step pays the quality bonus exactly when it is a successful upvote that
takes the message's counter from `QUALITY_UPVOTE_THRESHOLD - 1` to
`QUALITY_UPVOTE_THRESHOLD`. -/
theorem paysQuality_transition (db : DB) (mid : Nat) (o : Op × Nat)
    (hnodup : (msgIds db).Nodup) (hpq : paysQuality db mid o = true) :
    upvCount db mid = QUALITY_UPVOTE_THRESHOLD - 1 ∧
    upvCount (stepOp db o) mid = QUALITY_UPVOTE_THRESHOLD := by
  obtain ⟨op, now⟩ := o
  cases op with
  | post a did cl => simp [paysQuality] at hpq
  | vote a did opt => simp [paysQuality] at hpq
  | downvote a mid2 => simp [paysQuality] at hpq
  | report a mid2 => simp [paysQuality] at hpq
  | upvote a mid2 =>
    unfold paysQuality at hpq
    dsimp only at hpq
    rw [Bool.and_eq_true] at hpq
    obtain ⟨hmid, hres⟩ := hpq
    have hmid2 : mid2 = mid := by simpa using hmid
    subst hmid2
    have hok : ∃ q : Int, (runOp db (Op.upvote a mid2) now).1 =
        Except.ok (Outcome.upvoted q) ∧ q = QUALITY_MESSAGE_BONUS := by
      cases hr : (runOp db (Op.upvote a mid2) now).1 with
      | error e => rw [hr] at hres; simp at hres
      | ok out =>
        cases out with
        | posted i s => rw [hr] at hres; simp at hres
        | voted i s => rw [hr] at hres; simp at hres
        | downvoted => rw [hr] at hres; simp at hres
        | reported => rw [hr] at hres; simp at hres
        | upvoted qq =>
          rw [hr] at hres
          refine ⟨qq, rfl, ?_⟩
          simpa using hres
    obtain ⟨q, hq, hq15⟩ := hok
    subst hq15
    obtain ⟨agent, message, hagent, hb, hmsg, hself, hdup⟩ :=
      upvoteRoute_ok_inv db a mid2 now QUALITY_MESSAGE_BONUS hq
    have hsucc := upvoteRoute_success db a mid2 now agent message hnodup
      hagent hb hmsg hself hdup
    have hm0 : findMessage db mid2 = some message :=
      findMessage_of_findActive db mid2 message hnodup hmsg
    have hcnt : upvCount db mid2 = message.upvotes := by
      unfold upvCount
      rw [hm0]
    by_cases hq5 : (message.upvotes + 1 == QUALITY_UPVOTE_THRESHOLD) = true
    · have h5 : message.upvotes + 1 = QUALITY_UPVOTE_THRESHOLD := by simpa using hq5
      constructor
      · omega
      · unfold stepOp runOp
        dsimp only
        rw [hsucc]
        simp only [hq5, if_true]
        simp only [upvCount_updateDebateActivity, upvCount_awardPoints]
        have := findMessage_updateMessage_self
          (insertReaction db
            { message_id := mid2, agent_id := a, rtype := .upvote, created_at := now })
          mid2 (fun m => { m with upvotes := m.upvotes + 1 }) (fun m => rfl) message hm0
        unfold upvCount
        rw [this]
        exact h5
    · exfalso
      have hq5f : (message.upvotes + 1 == QUALITY_UPVOTE_THRESHOLD) = false := by
        simpa using hq5
      unfold runOp at hq
      dsimp only at hq
      rw [hsucc] at hq
      simp only [hq5f, Bool.false_eq_true, if_false] at hq
      simp [QUALITY_MESSAGE_BONUS] at hq

/-- From a state whose counter already reached the threshold, no later step
of any trace pays the quality bonus again. -/
theorem countQuality_eq_zero_of_ge (db : DB) (mid : Nat) (ops : List (Op × Nat))
    (hnodup : (msgIds db).Nodup)
    (hge : QUALITY_UPVOTE_THRESHOLD ≤ upvCount db mid) :
    countQuality db mid ops = 0 := by
  induction ops generalizing db with
  | nil => rfl
  | cons o rest ih =>
    unfold countQuality
    have hnp : paysQuality db mid o = false := by
      by_contra hc
      have := paysQuality_transition db mid o hnodup (by simpa using hc)
      unfold QUALITY_UPVOTE_THRESHOLD at this hge
      omega
    rw [hnp]
    simp only [Bool.false_eq_true, if_false, Nat.zero_add]
    exact ih (stepOp db o) (nodup_step db o hnodup)
      (le_trans hge (upvCount_step_le db o mid))

/-- Along any trace, the quality bonus is paid at most once per message. -/
theorem countQuality_le_one (db : DB) (mid : Nat) (ops : List (Op × Nat))
    (hnodup : (msgIds db).Nodup) : countQuality db mid ops ≤ 1 := by
  induction ops generalizing db with
  | nil => exact Nat.zero_le 1
  | cons o rest ih =>
    unfold countQuality
    by_cases hp : paysQuality db mid o = true
    · rw [hp]
      have htr := paysQuality_transition db mid o hnodup hp
      have h0 : countQuality (stepOp db o) mid rest = 0 :=
        countQuality_eq_zero_of_ge (stepOp db o) mid rest (nodup_step db o hnodup)
          (le_of_eq htr.2.symm)
      simp [h0]
    · have hp2 : paysQuality db mid o = false := by simpa using hp
      rw [hp2]
      simp only [Bool.false_eq_true, if_false, Nat.zero_add]
      exact ih (stepOp db o) (nodup_step db o hnodup)

/-- **C4**: over any trace of operations from a state with distinct message
ids, the +15 quality bonus for a given message is paid at most once, and any
step that pays it is the upvote taking the message's counter from exactly 4
to exactly 5 — no step paying it sees any other counter value. -/
theorem c4_quality_bonus_exactly_at_five (db : DB) (mid : Nat)
    (ops : List (Op × Nat)) (hnodup : (msgIds db).Nodup) :
    countQuality db mid ops ≤ 1 ∧
    (∀ o : Op × Nat, paysQuality db mid o = true →
      upvCount db mid = QUALITY_UPVOTE_THRESHOLD - 1 ∧
      upvCount (stepOp db o) mid = QUALITY_UPVOTE_THRESHOLD) :=
  ⟨countQuality_le_one db mid ops hnodup,
   fun o hp => paysQuality_transition db mid o hnodup hp⟩

/-- Witness for `c4_quality_bonus_exactly_at_five`: agent 2's upvote takes
message 1 from 4 to 5 upvotes, pays the bonus once, and a further upvote by
agent 1 would pay nothing. -/
theorem c4_quality_bonus_exactly_at_five_witness :
    countQuality c4db 1 [(Op.upvote 2 1, 100)] ≤ 1 ∧
    upvCount c4db 1 = QUALITY_UPVOTE_THRESHOLD - 1 ∧
    upvCount (stepOp c4db (Op.upvote 2 1, 100)) 1 = QUALITY_UPVOTE_THRESHOLD := by
  have h := c4_quality_bonus_exactly_at_five c4db 1 [(Op.upvote 2 1, 100)] (by decide)
  have h2 := h.2 (Op.upvote 2 1, 100) (by decide)
  exact ⟨h.1, h2.1, h2.2⟩


/-! ## C8: the best-debate flag machinery -/

@[simp] theorem bestFlag_updateAgent (db : DB) (i : Nat) (f : Agent → Agent) (j : Nat) :
    bestFlag (updateAgent db i f) j = bestFlag db j := rfl
@[simp] theorem bestFlag_updateMessage (db : DB) (i : Nat) (f : Message → Message) (j : Nat) :
    bestFlag (updateMessage db i f) j = bestFlag db j := rfl
@[simp] theorem bestFlag_insertReaction (db : DB) (r : Reaction) (j : Nat) :
    bestFlag (insertReaction db r) j = bestFlag db j := rfl
@[simp] theorem bestFlag_insertMessageRow (db : DB) (m : Message) (j : Nat) :
    bestFlag (insertMessageRow db m) j = bestFlag db j := rfl
@[simp] theorem bestFlag_insertVoteRecord (db : DB) (v : VoteRecord) (j : Nat) :
    bestFlag (insertVoteRecord db v) j = bestFlag db j := rfl
@[simp] theorem bestFlag_awardPoints (db : DB) (i : Nat) (x : Int) (j : Nat) :
    bestFlag (awardPoints db i x) j = bestFlag db j := rfl
@[simp] theorem bestFlag_updateRateLimit (db : DB) (i : Nat) (t : ActionType) (now j : Nat) :
    bestFlag (updateRateLimit db i t now) j = bestFlag db j := rfl

@[simp] theorem bestFlag_awardEach (db : DB) (ids : List Nat) (x : Int) (j : Nat) :
    bestFlag (awardEach db ids x) j = bestFlag db j := by
  unfold bestFlag
  rw [findDebate_awardEach]
@[simp] theorem bestFlag_checkAndBanAgent (db : DB) (i now j : Nat) :
    bestFlag (checkAndBanAgent db i now) j = bestFlag db j := by
  unfold bestFlag
  rw [findDebate_checkAndBanAgent]
@[simp] theorem bestFlag_checkActivationBonus (db : DB) (i p n j : Nat) :
    bestFlag (checkActivationBonus db i p n) j = bestFlag db j := by
  unfold bestFlag
  rw [findDebate_checkActivationBonus]
@[simp] theorem bestFlag_checkStreakBonus (db : DB) (i now j : Nat) :
    bestFlag (checkStreakBonus db i now).2 j = bestFlag db j := by
  unfold bestFlag
  rw [findDebate_checkStreakBonus]
@[simp] theorem bestFlag_checkInactiveDebateBonus (db : DB) (i : Nat) (d : Debate) (j : Nat) :
    bestFlag (checkInactiveDebateBonus db i d).2 j = bestFlag db j := by
  unfold bestFlag
  rw [findDebate_checkInactiveDebateBonus]
@[simp] theorem bestFlag_checkInactiveDebateBonusVote (db : DB) (i : Nat) (d : Debate) (j : Nat) :
    bestFlag (checkInactiveDebateBonusVote db i d).2 j = bestFlag db j := by
  unfold bestFlag
  rw [findDebate_checkInactiveDebateBonusVote]
@[simp] theorem bestFlag_autoModeration (db : DB) (mid aid now j : Nat) :
    bestFlag (autoModeration db mid aid now) j = bestFlag db j := by
  unfold bestFlag
  rw [findDebate_autoModeration]

theorem bestFlag_updateDebate_mono (db : DB) (did j : Nat) (f : Debate → Debate)
    (hf1 : ∀ d, (f d).id = d.id)
    (hf2 : ∀ d, d.best_rewarded = true → (f d).best_rewarded = true)
    (h : bestFlag db j = true) : bestFlag (updateDebate db did f) j = true := by
  unfold bestFlag at h ⊢
  rw [findDebate_updateDebate db did j f hf1]
  cases hd : findDebate db j with
  | none =>
    rw [hd] at h
    simp at h
  | some d =>
    rw [hd] at h
    have h2 : d.best_rewarded = true := by simpa using h
    by_cases hid : d.id = did
    · simp [hid, hf2 d h2]
    · simp [hid, h2]

theorem bestFlag_updateDebate_setStats (db : DB) (did j mc ua tu lv : Nat)
    (h : bestFlag db j = true) :
    bestFlag (updateDebate db did (setStats mc ua tu lv)) j = true :=
  bestFlag_updateDebate_mono db did j (setStats mc ua tu lv) (fun d => rfl)
    (fun d hh => hh) h

theorem bestFlag_updateDebate_votes (db : DB) (did j : Nat) (vs : List (String × Nat))
    (h : bestFlag db j = true) :
    bestFlag (updateDebate db did (fun d => { d with votes := vs })) j = true :=
  bestFlag_updateDebate_mono db did j (fun d => { d with votes := vs })
    (fun d => rfl) (fun d hh => hh) h

theorem bestFlag_updateDebate_voteStats (db : DB) (did j lv : Nat)
    (h : bestFlag db j = true) :
    bestFlag (updateDebate db did (fun d =>
      { d with bot_count := d.bot_count + 1, activity_level := lv })) j = true :=
  bestFlag_updateDebate_mono db did j
    (fun d => { d with bot_count := d.bot_count + 1, activity_level := lv })
    (fun d => rfl) (fun d hh => hh) h

theorem bestFlag_checkBestDebateBonus_mono (db : DB) (did : Nat) (d2 : Debate) (j : Nat)
    (h : bestFlag db j = true) : bestFlag (checkBestDebateBonus db did d2) j = true := by
  unfold checkBestDebateBonus
  try dsimp only
  repeat' split
  all_goals
    first
    | (rw [bestFlag_awardEach]
       exact bestFlag_updateDebate_mono db did j
         (fun d => { d with best_rewarded := true }) (fun d => rfl) (fun d _ => rfl) h)
    | exact h

theorem bestFlag_updateDebateActivity_mono (db : DB) (did j : Nat)
    (h : bestFlag db j = true) : bestFlag (updateDebateActivity db did) j = true := by
  unfold updateDebateActivity
  try dsimp only
  repeat' split
  all_goals
    first
    | (rw [bestFlag_checkActivationBonus]
       exact bestFlag_updateDebate_setStats db did j _ _ _ _ h)
    | (apply bestFlag_checkBestDebateBonus_mono
       rw [bestFlag_checkActivationBonus]
       exact bestFlag_updateDebate_setStats db did j _ _ _ _ h)

/-- No operation ever clears a debate's `best_rewarded` flag. -/
theorem bestFlag_step_mono (db : DB) (did : Nat) (o : Op × Nat)
    (h : bestFlag db did = true) : bestFlag (stepOp db o) did = true := by
  obtain ⟨op, now⟩ := o
  cases op with
  | post a pdid cl =>
    unfold stepOp runOp postMessageRoute withAgent
    dsimp only
    repeat' split
    all_goals try dsimp only
    all_goals
      first
      | (rw [bestFlag_checkStreakBonus]
         apply bestFlag_updateDebateActivity_mono
         simpa using h)
      | exact h
  | vote a vdid opt =>
    unfold stepOp runOp castVoteRoute withAgent
    dsimp only
    repeat' split
    all_goals try dsimp only
    all_goals
      first
      | (rw [bestFlag_checkStreakBonus, bestFlag_awardPoints, bestFlag_updateRateLimit]
         apply bestFlag_updateDebate_voteStats
         apply bestFlag_updateDebate_votes
         simpa using h)
      | exact h
  | upvote a mid =>
    unfold stepOp runOp upvoteRoute withAgent
    dsimp only
    repeat' split
    all_goals try dsimp only
    all_goals
      first
      | (apply bestFlag_updateDebateActivity_mono
         simpa using h
         done)
      | exact h
  | downvote a mid =>
    unfold stepOp runOp downvoteRoute withAgent
    dsimp only
    repeat' split
    all_goals try dsimp only
    all_goals
      first
      | (apply bestFlag_updateDebateActivity_mono
         simpa using h
         done)
      | exact h
  | report a mid =>
    unfold stepOp runOp reportRoute withAgent
    dsimp only
    repeat' split
    all_goals try dsimp only
    all_goals simpa using h

theorem bestFlag_trace_mono (db : DB) (did : Nat) (ops : List (Op × Nat))
    (h : bestFlag db did = true) : bestFlag (runTrace db ops) did = true := by
  induction ops generalizing db with
  | nil => exact h
  | cons o rest ih => exact ih (stepOp db o) (bestFlag_step_mono db did o h)

/-- Once the flag is set, no later step flips it (there is nothing left to
flip), so a trace flips it at most once. -/
theorem countBestFlips_eq_zero_of_true (db : DB) (did : Nat) (ops : List (Op × Nat))
    (h : bestFlag db did = true) : countBestFlips db did ops = 0 := by
  induction ops generalizing db with
  | nil => rfl
  | cons o rest ih =>
    unfold countBestFlips
    rw [h]
    simp only [Bool.not_true, Bool.false_and, Bool.false_eq_true, if_false, Nat.zero_add]
    exact ih (stepOp db o) (bestFlag_step_mono db did o h)

theorem countBestFlips_le_one (db : DB) (did : Nat) (ops : List (Op × Nat)) :
    countBestFlips db did ops ≤ 1 := by
  induction ops generalizing db with
  | nil => exact Nat.zero_le 1
  | cons o rest ih =>
    unfold countBestFlips
    by_cases hflip : (!bestFlag db did && bestFlag (stepOp db o) did) = true
    · rw [hflip]
      have hafter : bestFlag (stepOp db o) did = true := by
        have := hflip
        simp only [Bool.and_eq_true] at this
        exact this.2
      have h0 := countBestFlips_eq_zero_of_true (stepOp db o) did rest hafter
      simp [h0]
    · have hflip2 : (!bestFlag db did && bestFlag (stepOp db o) did) = false := by
        simpa using hflip
      rw [hflip2]
      simp only [Bool.false_eq_true, if_false, Nat.zero_add]
      exact ih (stepOp db o)

theorem eraseDups_loop_nodup (as bs : List Nat) (hbs : bs.Nodup) :
    (List.eraseDups.loop as bs).Nodup := by
  induction as generalizing bs with
  | nil => simpa [List.eraseDups.loop] using hbs
  | cons a as ih =>
    unfold List.eraseDups.loop
    cases hel : bs.elem a with
    | true => exact ih bs hbs
    | false =>
      apply ih
      refine List.nodup_cons.mpr ⟨?_, hbs⟩
      intro hmem
      rw [List.elem_eq_true_of_mem hmem] at hel
      exact Bool.true_eq_false.mp hel

theorem eraseDups_nodup (l : List Nat) : l.eraseDups.Nodup :=
  eraseDups_loop_nodup l [] List.nodup_nil

/-- **C8**: along any trace the `best_rewarded` flag of a debate flips from
false to true at most once and is never cleared; the best-debate payout runs
(changing the state) only when `upvotes ≥ 30 ∧ messageCount ≥ 50 ∧
activityLevel ≥ 8` hold with the stored flag still false; and the payout's
recipient list is duplicate-free, so each distinct participant is paid at
most once by the single payout. -/
theorem c8_best_rewarded_once (db : DB) (did : Nat) (ops : List (Op × Nat)) :
    countBestFlips db did ops ≤ 1 ∧
    (bestFlag db did = true → bestFlag (runTrace db ops) did = true) ∧
    (∀ (db2 : DB) (d2 : Debate), checkBestDebateBonus db2 did d2 ≠ db2 →
      (d2.upvotes ≥ 30 ∧ d2.message_count ≥ 50 ∧ d2.activity_level ≥ 8) ∧
      bestFlag db2 did = false) ∧
    (∀ db2 : DB, (debateParticipants db2 did).Nodup) := by
  refine ⟨countBestFlips_le_one db did ops,
    fun h => bestFlag_trace_mono db did ops h, ?_, fun db2 => eraseDups_nodup _⟩
  intro db2 d2 hne
  unfold checkBestDebateBonus at hne
  dsimp only at hne
  by_cases hbest : (d2.upvotes ≥ 30 && d2.message_count ≥ 50 && d2.activity_level ≥ 8) = true
  · have hb3 : (30 ≤ d2.upvotes ∧ 50 ≤ d2.message_count) ∧ 8 ≤ d2.activity_level := by
      simpa [Bool.and_eq_true] using hbest
    refine ⟨⟨hb3.1.1, hb3.1.2, hb3.2⟩, ?_⟩
    rw [hbest] at hne
    simp only [Bool.not_true, Bool.false_eq_true, if_false] at hne
    by_cases hflag : bestFlag db2 did = true
    · exfalso
      apply hne
      have : (match findDebate db2 did with
          | some current => current.best_rewarded
          | none => false) = true := by
        unfold bestFlag at hflag
        cases hd : findDebate db2 did with
        | none => rw [hd] at hflag; simp at hflag
        | some d => rw [hd] at hflag; simpa [hd] using hflag
      rw [this]
      simp
    · simpa using hflag
  · exfalso
    have hb2 : (!(d2.upvotes ≥ 30 && d2.message_count ≥ 50 && d2.activity_level ≥ 8)) = true := by
      simp only [Bool.not_eq_true']
      simpa using hbest
    rw [hb2] at hne
    simp at hne

/-- Witness for `c8_best_rewarded_once`: on a debate whose flag is already
set, a post flips nothing and the flag survives the step. -/
theorem c8_best_rewarded_once_witness :
    countBestFlips c8db 1 [(Op.post 2 1 10, 50)] ≤ 1 ∧
    bestFlag (runTrace c8db [(Op.post 2 1 10, 50)]) 1 = true := by
  have h := c8_best_rewarded_once c8db 1 [(Op.post 2 1 10, 50)]
  exact ⟨h.1, h.2.1 rfl⟩

end Agora
